import Mathlib

/-!
Shallow embedding of the CareHaven-AI cognitive data producers
(`cognitivehealthmonitoring/dataproducers/`): the multi-domain simulator
(`simulate_multidomain_cognitive_data.py`), the memory simulator
(`simulate_memory_data.py`), the executive-function simulator
(`simulate_executive_function_data.py`) and the mobility simulator
(`simulate_cognitive_data.py`).

Modelling conventions:
* Python floats are modelled as exact rationals (`ℚ`).
* The process-wide `random` module is modelled as an explicit state `RNG`:
  an abstract draw stream `Nat → ℚ` plus a cursor.  Each call to a `random`
  primitive consumes exactly one abstract draw, in the source's call order.
  The draw for `normalvariate mu sigma` is the standard score, so the result
  is `mu + sigma * z`; `random()` yields the fractional part of the draw
  (a value in `[0,1)`); `randint a b` folds the draw into `[a,b]`;
  `uniform a b` maps the fractional part affinely onto `[a,b]`.
  `random.seed s` replaces the stream by one determined solely by the seed
  (parameter `sfn : Int → Nat → ℚ`, the seed-to-stream map of the Mersenne
  Twister, over which all theorems quantify).
* `uuid.uuid4()` is NOT driven by the `random` module (CPython draws it from
  `os.urandom`), so it is modelled as a separate entropy source
  `uuids : Nat → String`, indexed by the patient position that requests it,
  and is not reset by seeding.
* `datetime` values are minute counts (`Int`); `timedelta(days, hours,
  minutes)` is `1440*days + 60*hours + minutes`.
* Python dict profiles are structures of `Option` fields (`none` = key
  absent or falsy); profile-list entries are assumed to be truthy dicts.
* Fallible code (list indexing that can raise `IndexError`, the `ValueError`
  parameter checks) returns `Except String _`.
-/

set_option autoImplicit false

namespace CareHaven

/-- Abstract state of Python's process-wide `random` generator: a draw
stream and a cursor. -/
structure RNG where
  stream : Nat → ℚ
  idx : Nat

/-- Consume one abstract draw. -/
def RNG.next (g : RNG) : ℚ × RNG :=
  (g.stream g.idx, { g with idx := g.idx + 1 })

/-- `random.random()`: a uniform draw in `[0,1)`, modelled as the fractional
part of the abstract draw. -/
def pyRandom (g : RNG) : ℚ × RNG :=
  let p := g.next
  (p.1 - ⌊p.1⌋, p.2)

/-- `random.normalvariate(mu, sigma)`: the abstract draw is the standard
score. -/
def normalvariate (mu sigma : ℚ) (g : RNG) : ℚ × RNG :=
  let p := g.next
  (mu + sigma * p.1, p.2)

/-- `random.randint(a, b)` (requires `a ≤ b` in Python): folds the abstract
draw into the closed interval `[a, b]`. -/
def pyRandint (a b : Int) (g : RNG) : Int × RNG :=
  let p := g.next
  (a + (⌊p.1⌋ % (b - a + 1)), p.2)

/-- `random.uniform(a, b)`: affine image of the `[0,1)` fractional part. -/
def pyUniform (a b : ℚ) (g : RNG) : ℚ × RNG :=
  let p := g.next
  (a + (b - a) * (p.1 - ⌊p.1⌋), p.2)

/-- Python 3 `round(x)`: round half to even, returning an integer. -/
def pyRound (x : ℚ) : Int :=
  let f := ⌊x⌋
  let r := x - f
  if r < 1/2 then f
  else if 1/2 < r then f + 1
  else if f % 2 = 0 then f else f + 1

/-- Python `round(x, 2)`: two decimal digits, half to even. -/
def pyRound2 (x : ℚ) : ℚ := (pyRound (x * 100) : ℚ) / 100

/-- Python `round(x, 1)`: one decimal digit, half to even. -/
def pyRound1 (x : ℚ) : ℚ := (pyRound (x * 10) : ℚ) / 10

/-- Python `int(x)` on a float: truncation toward zero. -/
def pyInt (x : ℚ) : Int :=
  if x < 0 then -⌊-x⌋ else ⌊x⌋

/-- Truthiness of an optional string (Python `or` / `if not d:`):
present and non-empty. -/
def strTruthy : Option String → Bool
  | some s => !s.isEmpty
  | none => false

/-- `o or default` for an optional string with a synthesized fallback. -/
def orStr (o : Option String) (fallback : String) : String :=
  match o with
  | some s => if s.isEmpty then fallback else s
  | none => fallback

/-- Zero-padded three-digit index (`f'{i:03d}'`). -/
def pad3 (n : Nat) : String :=
  if n < 10 then "00" ++ toString n
  else if n < 100 then "0" ++ toString n
  else toString n

/-- `cognitive_baseline` sub-dict of a patient profile. -/
structure CogBaseline where
  mmse : Option Int
  moca : Option Int
  depression_score : Option Int
deriving DecidableEq, Repr

/-- A patient profile dict, restricted to the keys the simulators read.
A profile occurring in a profile list is assumed to be a truthy dict. -/
structure Profile where
  patient_id : Option String
  speech : Option String
  clinic : Option String
  app : Option String
  wearable : Option String
  cognitive_baseline : Option CogBaseline
deriving DecidableEq, Repr

/-- `random.seed(seed)` via `seeded(seed)`: a `some` seed replaces the
generator state by one determined solely by the seed (through the
seed-to-stream map `sfn`); `None` leaves the ambient state untouched. -/
def seeded (sfn : Int → Nat → ℚ) (seed : Option Int) (g : RNG) : RNG :=
  match seed with
  | none => g
  | some s => { stream := sfn s, idx := 0 }

end CareHaven

namespace Multidomain

open CareHaven

/-- The cognitive factor computed by `extract_baselines` (source line 54):
`cf = max(0.3, min(1.0, (mmse + moca) / 60))`. -/
def cognitive_factor (mmse moca : Int) : ℚ :=
  max 0.3 (min 1.0 (((mmse + moca : Int) : ℚ) / 60))

/-- `extract_baselines`: returns `(cognitive_factor, mmse, moca,
depression_score)`.  A falsy profile samples synthetic scores; otherwise
missing `cognitive_baseline` entries default to `mmse=26, moca=24,
depression_score=6`. -/
def extract_baselines (profile : Option Profile) (g : RNG) :
    (ℚ × Int × Int × Int) × RNG :=
  match profile with
  | none =>
    let p1 := pyRandint 22 29 g
    let mmse := p1.1
    let p2 := pyRandint 20 28 p1.2
    let moca := p2.1
    let p3 := pyRandint 0 14 p2.2
    let dep := p3.1
    ((cognitive_factor mmse moca, mmse, moca, dep), p3.2)
  | some p =>
    let cb := p.cognitive_baseline
    let mmse := (cb.bind CogBaseline.mmse).getD 26
    let moca := (cb.bind CogBaseline.moca).getD 24
    let dep := (cb.bind CogBaseline.depression_score).getD 6
    ((cognitive_factor mmse moca, mmse, moca, dep), g)

/-- Per-patient latent state built by `generate_patient_state`. -/
structure PState where
  patient_id : String
  device_id : String
  cf : ℚ
  mmse : Int
  moca : Int
  depression : Int
  attention_span_base : ℚ
  attention_latency_base : ℚ
  exec_fluency_base : ℚ
  exec_pause_base : ℚ
  exec_artic_base : ℚ
  memory_immediate_base : ℚ
  memory_delayed_base : ℚ
  sentiment_base : ℚ
  narrative_base : ℚ
  reaction_time_base : ℚ
deriving DecidableEq, Repr

/-- Body of one `generate_patient_state` loop iteration, after identity and
baseline-score resolution (lines 72–102 of the source). -/
def mkState (pid device_id : String) (cf : ℚ) (mmse moca dep : Int)
    (g : RNG) : PState × RNG :=
  let dep_penalty : ℚ := min 0.15 ((dep : ℚ) * 0.005)
  let p1 := normalvariate (4.0 + cf * 3.0 - dep_penalty * 1.5) 0.55 g
  let p2 := normalvariate (1.65 - cf * 0.85 + dep_penalty * 0.4) 0.14 p1.2
  let p3 := normalvariate (12 + cf * 14 - dep_penalty * 6) 2.8 p2.2
  let p4 := normalvariate (1420 - cf * 620 + dep_penalty * 220) 170 p3.2
  let p5 := normalvariate (1.38 + cf * 0.92 - dep_penalty * 0.25) 0.18 p4.2
  let p6 := normalvariate (2.9 + cf * 2.0 - dep_penalty * 1.2) 0.48 p5.2
  let p7 := normalvariate (0.9 - cf * 0.7 + dep_penalty * 0.3) 0.37 p6.2
  let memory_delayed := p6.1 - p7.1
  let p8 := normalvariate (0.47 + cf * 0.25 - dep_penalty * 1.1) 0.09 p7.2
  let p9 := normalvariate (0.5 + cf * 0.34 - dep_penalty * 0.8) 0.09 p8.2
  let p10 := normalvariate (905 - cf * 355 + dep_penalty * 140) 58 p9.2
  ({ patient_id := pid, device_id := device_id, cf := cf, mmse := mmse,
     moca := moca, depression := dep,
     attention_span_base := p1.1,
     attention_latency_base := p2.1,
     exec_fluency_base := p3.1,
     exec_pause_base := p4.1,
     exec_artic_base := p5.1,
     memory_immediate_base := p6.1,
     memory_delayed_base := memory_delayed,
     sentiment_base := p8.1,
     narrative_base := p9.1,
     reaction_time_base := p10.1 }, p10.2)

/-- Loop of `generate_patient_state` when a truthy profile list is present
(the Python `if patient_profiles:` test is loop-invariant): countdown over
the remaining patient count with running index `i`, indexing the list
(raising `IndexError` past its end).  `uuids` is the `uuid.uuid4()` entropy
source, indexed by patient. -/
def gpsSome (profiles : List Profile) (uuids : Nat → String) :
    Nat → Nat → RNG → Except String (List PState × RNG)
  | 0, _, g => .ok ([], g)
  | k + 1, i, g =>
    match profiles[i]? with
    | none => .error "IndexError: list index out of range"
    | some profile =>
      let eb := extract_baselines (some profile) g
      let pid := orStr profile.patient_id (uuids i)
      let device_id := orStr profile.speech ("SPK-" ++ pad3 (i + 1))
      let sp := mkState pid device_id eb.1.1 eb.1.2.1 eb.1.2.2.1
        eb.1.2.2.2 eb.2
      (gpsSome profiles uuids k (i + 1) sp.2).map
        (fun pr => (sp.1 :: pr.1, pr.2))

/-- Loop of `generate_patient_state` with no (truthy) profile list: fully
synthetic identities; this path cannot fail. -/
def gpsNone (uuids : Nat → String) :
    Nat → Nat → RNG → List PState × RNG
  | 0, _, g => ([], g)
  | k + 1, i, g =>
    let eb := extract_baselines none g
    let pid := uuids i
    let device_id := "SPK-" ++ pad3 (i + 1)
    let sp := mkState pid device_id eb.1.1 eb.1.2.1 eb.1.2.2.1
      eb.1.2.2.2 eb.2
    let pr := gpsNone uuids k (i + 1) sp.2
    (sp.1 :: pr.1, pr.2)

/-- `generate_patient_state(num_patients, patient_profiles)`. -/
def generate_patient_state (num_patients : Nat)
    (profilesOpt : Option (List Profile)) (uuids : Nat → String) (g : RNG) :
    Except String (List PState × RNG) :=
  match profilesOpt with
  | some (p₀ :: ps) => gpsSome (p₀ :: ps) uuids num_patients 0 g
  | _ => .ok (gpsNone uuids num_patients 0 g)

/-- The decline gate and decay term of `simulate_session` (source lines
108–109): active only for `cf < 0.55` after day 20. -/
def decayFactor (cf : ℚ) (day_index : Nat) : ℚ :=
  if cf < 0.55 ∧ 20 < day_index then ((day_index : ℚ) - 20) * 0.05 else 0

/-- The practice multiplier of `simulate_session` (source line 110). -/
def practiceMult (day_index : Nat) : ℚ :=
  if day_index ≤ 4 then min 1.0 (0.75 + 0.07 * (day_index : ℚ)) else 1.0

/-- The intrusion-error probability actually compared against
`random.random()` in `simulate_session` (source lines 124–129): the
sequential accumulation, the `min 0.40` applied when stored, and the
`max 0.01` applied at the comparison site. -/
def intrusionUsedProb (imm delayed : Int) (cf : ℚ) (dep : Int) : ℚ :=
  let p : ℚ := 0.10
  let p := p + (max 0 ((imm : ℚ) - (delayed : ℚ))) * 0.05
  let p := p + (max 0 (0.55 - cf)) * 0.16
  let p := p + ((dep : ℚ) / 30) * 0.12
  let p := min 0.40 p
  max 0.01 p

/-- One composite session's metrics block. -/
structure Session where
  digit_span_max : Int
  att_errors : Int
  latency_sec : ℚ
  verbal_fluency_words : Int
  articulation_rate_wps : ℚ
  avg_pause_ms : Int
  immediate_recall : Int
  delayed_recall : Int
  intrusion_errors : Int
  date_correct : Bool
  city_correct : Bool
  avg_reaction_time_ms : Int
  missed_trials : Int
  sentiment_score : ℚ
  narrative_coherence : ℚ
deriving DecidableEq, Repr

/-- `simulate_session(state, day_index)`. -/
def simulate_session (st : PState) (day_index : Nat) (g : RNG) :
    Session × RNG :=
  let decay_factor := decayFactor st.cf day_index
  let practice_mult := practiceMult day_index

  let q1 :=
    normalvariate (st.attention_span_base * practice_mult - decay_factor) 0.5 g
  let span := max 2 (min (pyRound q1.1) 8)
  let q2 := normalvariate (((6 - span : Int) : ℚ) * 0.6) 0.7 q1.2
  let att_errors := max 0 (pyInt q2.1)
  let q3 :=
    normalvariate (st.attention_latency_base / practice_mult
      + decay_factor * 0.2) 0.12 q2.2
  let att_latency := max 0.6 q3.1

  let q4 :=
    normalvariate (st.exec_fluency_base * practice_mult - decay_factor * 2)
      3 q3.2
  let fluency := max 3 (pyInt (pyRound q4.1 : ℚ))
  let q5 :=
    normalvariate (st.exec_artic_base * practice_mult - decay_factor * 0.05)
      0.15 q4.2
  let articulation := max 0.6 (pyRound2 q5.1)
  let q6 :=
    normalvariate (st.exec_pause_base / practice_mult + decay_factor * 120)
      160 q5.2
  let pause := pyInt (max 300 q6.1)

  let q7 :=
    normalvariate (st.memory_immediate_base * practice_mult
      - decay_factor * 0.2) 0.6 q6.2
  let imm := max 0 (min 5 (pyInt (pyRound q7.1 : ℚ)))
  let q8 :=
    normalvariate (st.memory_delayed_base * practice_mult
      - decay_factor * 0.35) 0.7 q7.2
  let delayed := max 0 (min imm (pyInt (pyRound q8.1 : ℚ)))

  let q9 := pyRandom q8.2
  let intrusions : Int :=
    if q9.1 < intrusionUsedProb imm delayed st.cf st.depression then 1
    else 0

  let q10 := pyRandom q9.2
  let date_correct :=
    q10.1 < 0.85 + (st.cf - 0.6) * 0.25 - decay_factor * 0.05
  let q11 := pyRandom q10.2
  let city_correct :=
    q11.1 < 0.8 + (st.cf - 0.6) * 0.30 - decay_factor * 0.07

  let q12 :=
    normalvariate (st.reaction_time_base / practice_mult + decay_factor * 40)
      50 q11.2
  let reaction_time := pyInt (max 350 q12.1)
  let q13 :=
    if 600 < reaction_time then
      let q :=
        normalvariate (((reaction_time - 600 : Int) : ℚ) / 160) 0.6 q12.2
      (max 0 (pyInt q.1), q.2)
    else ((0 : Int), q12.2)
  let missed_trials := q13.1

  let dep := st.depression
  let dep_adj : ℚ := (dep : ℚ) / 30
  let q14 :=
    normalvariate (st.sentiment_base + (practice_mult - 1.0) * 0.05
      - decay_factor * 0.02 - dep_adj * 0.15) 0.07 q13.2
  let sentiment := max 0.0 (min 1.0 (pyRound2 q14.1))
  let q15 :=
    normalvariate (st.narrative_base + (practice_mult - 1.0) * 0.06
      - decay_factor * 0.03 - dep_adj * 0.12) 0.08 q14.2
  let narrative := max 0.0 (min 1.0 (pyRound2 q15.1))

  ({ digit_span_max := span, att_errors := att_errors,
     latency_sec := pyRound2 att_latency,
     verbal_fluency_words := fluency,
     articulation_rate_wps := articulation,
     avg_pause_ms := pause,
     immediate_recall := imm, delayed_recall := delayed,
     intrusion_errors := intrusions,
     date_correct := decide date_correct, city_correct := decide city_correct,
     avg_reaction_time_ms := reaction_time, missed_trials := missed_trials,
     sentiment_score := sentiment, narrative_coherence := narrative }, q15.2)

/-- One emitted composite record (`session_date` as a minute count). -/
structure MDRecord where
  device_id : String
  patient_id : String
  session_date : Int
  metrics : Session
deriving DecidableEq, Repr

/-- Per-patient day loop of `generate_dataset` (source lines 189–198),
recursing over the remaining day count with running day index. -/
def genDays (st : PState) (start_date : Int) :
    Nat → Nat → RNG → List MDRecord × RNG
  | 0, _, g => ([], g)
  | k + 1, day, g =>
    let pm := pyRandint 0 50 g
    let session_time := start_date + 1440 * (day : Int) + 60 * 8 + pm.1
    let ps := simulate_session st day pm.2
    let record : MDRecord :=
      { device_id := st.device_id, patient_id := st.patient_id,
        session_date := session_time, metrics := ps.1 }
    let pr := genDays st start_date k (day + 1) ps.2
    (record :: pr.1, pr.2)

/-- Patient loop of `generate_dataset` (source lines 186–198). -/
def genAll (start_date : Int) (days : Nat) :
    List PState → RNG → List MDRecord × RNG
  | [], g => ([], g)
  | st :: rest, g =>
    let pd := genDays st start_date days 0 g
    let pa := genAll start_date days rest pd.2
    (pd.1 ++ pa.1, pa.2)

/-- `generate_dataset(num_patients, days, start_date, seed,
patient_profiles)` of the multi-domain simulator.  `sfn` is the
seed-to-stream map, `uuids` the `uuid4` entropy source, `g0` the ambient
generator state before the call. -/
def generate_dataset (num_patients days : Int) (start_date : Int)
    (seed : Option Int) (patient_profiles : Option (List Profile))
    (sfn : Int → Nat → ℚ) (uuids : Nat → String) (g0 : RNG) :
    Except String (List MDRecord) :=
  if num_patients ≤ 0 then .error "ValueError: num_patients must be > 0"
  else if days ≤ 0 then .error "ValueError: days must be > 0"
  else
    let g := seeded sfn seed g0
    let provided : Bool :=
      match patient_profiles with
      | some (_ :: _) => true
      | _ => false
    match generate_patient_state num_patients.toNat
        (if provided then patient_profiles else none) uuids g with
    | .error e => .error e
    | .ok sg =>
      .ok (genAll start_date days.toNat sg.1 sg.2).1

end Multidomain

namespace MemorySim

open CareHaven

/-- `MAX_WORDS = 5`. -/
def MAX_WORDS : Int := 5

/-- The cognitive factor the memory simulator derives from a profile
(source lines 52–55): note the `moca` default is 23 here. -/
def cogFactorOf (p : Profile) : ℚ :=
  let cb := p.cognitive_baseline
  let mmse := (cb.bind CogBaseline.mmse).getD 26
  let moca := (cb.bind CogBaseline.moca).getD 23
  ((mmse + moca : Int) : ℚ) / 60

/-- Per-patient latent parameters of the memory simulator. -/
structure MemBase where
  immediate_base : ℚ
  delayed_base : ℚ
  late_decline_rate : ℚ
  intrusions_base_prob : ℚ
  cog_factor : ℚ
deriving DecidableEq, Repr

/-- Body of one `derive_baselines` iteration given the patient's cognitive
factor (source lines 59–77). -/
def mkMemBase (cog_factor : ℚ) (g : RNG) : MemBase × RNG :=
  let p1 := normalvariate (3.2 + 1.5 * cog_factor) 0.6 g
  let p2 := normalvariate (0.8 - 0.9 * cog_factor) 0.4 p1.2
  let delayed_raw := p1.1 - p2.1
  let immediate_base := max 0.5 (min p1.1 (MAX_WORDS : ℚ))
  let delayed_base :=
    max 0.0 (min (min delayed_raw immediate_base) (MAX_WORDS : ℚ))
  let p3 :=
    if cog_factor < 0.6 then
      let r := pyRandom p2.2
      (decide (r.1 < 0.5), r.2)
    else (false, p2.2)
  let p4 :=
    if p3.1 then pyUniform 0.02 0.08 p3.2 else ((0.0 : ℚ), p3.2)
  let intrusions_base_prob := max 0.01 (0.15 - 0.12 * cog_factor)
  ({ immediate_base := immediate_base, delayed_base := delayed_base,
     late_decline_rate := p4.1,
     intrusions_base_prob := intrusions_base_prob,
     cog_factor := cog_factor }, p4.2)

/-- Loop of the memory simulator's `derive_baselines` with a truthy
profile list: countdown with running index into the list. -/
def dbSome (profiles : List Profile) :
    Nat → Nat → RNG → Except String (List MemBase × RNG)
  | 0, _, g => .ok ([], g)
  | k + 1, i, g =>
    match profiles[i]? with
    | none => .error "IndexError: list index out of range"
    | some p =>
      let pb := mkMemBase (cogFactorOf p) g
      (dbSome profiles k (i + 1) pb.2).map
        (fun pr => (pb.1 :: pr.1, pr.2))

/-- Loop of the memory simulator's `derive_baselines` with no profiles:
synthetic cognitive factors; cannot fail. -/
def dbNone : Nat → Nat → RNG → List MemBase × RNG
  | 0, _, g => ([], g)
  | k + 1, i, g =>
    let pc := pyUniform 0.45 0.95 g
    let pb := mkMemBase pc.1 pc.2
    let pr := dbNone k (i + 1) pb.2
    (pb.1 :: pr.1, pr.2)

/-- `derive_baselines(num_patients, patient_profiles)` of the memory
simulator. -/
def derive_baselines (num_patients : Nat)
    (profilesOpt : Option (List Profile)) (g : RNG) :
    Except String (List MemBase × RNG) :=
  match profilesOpt with
  | some (p₀ :: ps) => dbSome (p₀ :: ps) num_patients 0 g
  | _ => .ok (dbNone num_patients 0 g)

/-- Pre-noise trend of `simulate_memory_day` (source lines 83–94): practice
ramp over days 0–2, plateau, and the gated late decline after day 15.
Returns `(immediate, delayed)` trend means. -/
def memTrend (base : MemBase) (day_index : Nat) : ℚ × ℚ :=
  let immediate :=
    if day_index ≤ 2 then base.immediate_base + 0.25 * (day_index : ℚ)
    else base.immediate_base + 0.25 * 2
  let delayed :=
    if day_index ≤ 2 then base.delayed_base + 0.20 * (day_index : ℚ)
    else base.delayed_base + 0.20 * 2
  if 0 < base.late_decline_rate ∧ 15 < day_index then
    let decline_days : ℚ := (day_index : ℚ) - 15
    (immediate - base.late_decline_rate * 0.4 * decline_days,
     delayed - base.late_decline_rate * decline_days)
  else (immediate, delayed)

/-- Metrics block of one memory record. -/
structure MemMetrics where
  immediate_recall_correct : Int
  delayed_recall_correct : Int
  intrusion_errors : Int
deriving DecidableEq, Repr

/-- `simulate_memory_day(base, day_index)`. -/
def simulate_memory_day (base : MemBase) (day_index : Nat) (g : RNG) :
    MemMetrics × RNG :=
  let t := memTrend base day_index
  let p1 := normalvariate t.1 0.5 g
  let p2 := normalvariate t.2 0.6 p1.2
  let immediate := max 0 (min (pyRound p1.1) MAX_WORDS)
  let delayed := max 0 (min (min (pyRound p2.1) immediate) MAX_WORDS)
  let gap := immediate - delayed
  let base_prob := base.intrusions_base_prob
  let intrusion_prob := base_prob + 0.06 * (max 0 ((gap : ℚ) - 1))
  let intrusion_prob := min intrusion_prob 0.35
  let p3 := pyRandom p2.2
  let intrusions : Int := if p3.1 < intrusion_prob then 1 else 0
  ({ immediate_recall_correct := immediate,
     delayed_recall_correct := delayed,
     intrusion_errors := intrusions }, p3.2)

/-- One emitted memory record (`timestamp` as a minute count; the constant
`domain` and `test_type` tags are kept). -/
structure MemRecord where
  device_id : String
  patient_id : String
  timestamp : Int
  domain : String
  immediate_recall_correct : Int
  delayed_recall_correct : Int
  intrusion_errors : Int
  test_type : String
deriving DecidableEq, Repr

/-- The shortage warning printed by the single-domain simulators. -/
def warnMsg (req avail : Nat) : String :=
  "[WARN] Requested " ++ toString req ++ " patients but only "
    ++ toString avail ++ " profiles available. Reducing."

/-- Patient-id resolution over the profile slice (source line 132):
reuse `patient_id` when truthy, else a fresh `uuid4`. -/
def memPids (slice : List Profile) (uuids : Nat → String) : List String :=
  (List.range slice.length).zipWith
    (fun i p => orStr p.patient_id (uuids i)) slice

/-- Device-id resolution over the profile slice (source lines 133–136):
reuse `device_ids.clinic` when truthy, else synthesize `CLIN-{i+1:03d}`. -/
def memDevs (slice : List Profile) : List String :=
  (List.range slice.length).zipWith
    (fun i p => orStr p.clinic ("CLIN-" ++ pad3 (i + 1))) slice

/-- Day loop for one memory patient (source lines 147–158). -/
def memDays (pid dev_id : String) (start_date : Int) (base : MemBase) :
    Nat → Nat → RNG → List MemRecord × RNG
  | 0, _, g => ([], g)
  | k + 1, day, g =>
    let ph := pyRandint 10 12 g
    let pm := pyRandint 0 59 ph.2
    let timestamp := start_date + 1440 * (day : Int) + 60 * ph.1 + pm.1
    let ps := simulate_memory_day base day pm.2
    let record : MemRecord :=
      { device_id := dev_id, patient_id := pid, timestamp := timestamp,
        domain := "memory",
        immediate_recall_correct := ps.1.immediate_recall_correct,
        delayed_recall_correct := ps.1.delayed_recall_correct,
        intrusion_errors := ps.1.intrusion_errors,
        test_type := "MoCA_recall" }
    let pr := memDays pid dev_id start_date base k (day + 1) ps.2
    (record :: pr.1, pr.2)

/-- Patient loop of the memory simulator's `generate_dataset` over the
aligned (pid, device, baseline) triples. -/
def memAll (start_date : Int) (days : Nat) :
    List ((String × String) × MemBase) → RNG → List MemRecord × RNG
  | [], g => ([], g)
  | ((pid, dev), base) :: rest, g =>
    let pd := memDays pid dev start_date base days 0 g
    let pa := memAll start_date days rest pd.2
    (pd.1 ++ pa.1, pa.2)

/-- `generate_dataset` of the memory simulator.  Returns the list of
console messages (the shortage warning and the final reuse notice) together
with the records. -/
def generate_dataset (num_patients days : Int) (start_date : Int)
    (seed : Option Int) (patient_profiles : Option (List Profile))
    (sfn : Int → Nat → ℚ) (uuids : Nat → String) (g0 : RNG) :
    Except String (List String × List MemRecord) :=
  if num_patients ≤ 0 then .error "ValueError: num_patients must be > 0"
  else if days ≤ 0 then .error "ValueError: days must be > 0"
  else
    let g := seeded sfn seed g0
    match patient_profiles with
    | some (p₀ :: ps) =>
      let profiles := p₀ :: ps
      let shortage := profiles.length < num_patients.toNat
      let warns : List String :=
        if shortage then [warnMsg num_patients.toNat profiles.length] else []
      let num' := if shortage then profiles.length else num_patients.toNat
      let slice := profiles.take num'
      let patient_ids := memPids slice uuids
      let device_ids := memDevs slice
      match derive_baselines num' (some profiles) g with
      | .error e => .error e
      | .ok bg =>
        let triples := (patient_ids.zip device_ids).zip bg.1
        .ok (warns ++
          ["Reused " ++ toString num' ++ " patient IDs from profiles."],
          (memAll start_date days.toNat triples bg.2).1)
    | _ =>
      let num' := num_patients.toNat
      let patient_ids := (List.range num').map uuids
      let device_ids := (List.range num').map
        (fun i => "CLIN-" ++ pad3 (i + 1))
      match derive_baselines num' none g with
      | .error e => .error e
      | .ok bg =>
        let triples := (patient_ids.zip device_ids).zip bg.1
        .ok ([], (memAll start_date days.toNat triples bg.2).1)

end MemorySim

namespace ExecSim

open CareHaven

/-- The performance factor the executive-function simulator derives from a
profile (source lines 57–61): defaults `mmse=26, moca=24`. -/
def perfFactorOf (p : Profile) : ℚ :=
  let cb := p.cognitive_baseline
  let mmse := (cb.bind CogBaseline.mmse).getD 26
  let moca := (cb.bind CogBaseline.moca).getD 24
  ((mmse + moca : Int) : ℚ) / 60

/-- Per-patient latent parameters of the executive-function simulator. -/
structure ExecBase where
  tmt_base : ℚ
  errors_base : Int
  sdmt_base : ℚ
  practice_gain_tmt : ℚ
  practice_gain_sdmt : ℚ
  late_decline_tmt : ℚ
  late_decline_sdmt : ℚ
deriving DecidableEq, Repr

/-- Body of one executive `derive_baselines` iteration (source lines
62–91). -/
def mkExecBase (perf_factor : ℚ) (g : RNG) : ExecBase × RNG :=
  let p1 := normalvariate (170 - perf_factor * 80) 15 g
  let tmt_base := max 65 (min p1.1 260)
  let p2 := normalvariate ((220 - tmt_base) / 40) 1.0 p1.2
  let errors_base := min (max 0 (pyInt p2.1)) 10
  let p3 := normalvariate (30 + perf_factor * 30) 4 p2.2
  let sdmt_base := max 15 (min p3.1 70)
  let p4 := pyUniform 0.5 1.5 p3.2
  let p5 := pyUniform 0.6 1.4 p4.2
  let p6 := pyUniform 0.05 0.25 p5.2
  let p7 := pyUniform 0.05 0.20 p6.2
  ({ tmt_base := tmt_base, errors_base := errors_base,
     sdmt_base := sdmt_base,
     practice_gain_tmt := p4.1,
     practice_gain_sdmt := p5.1,
     late_decline_tmt := p6.1,
     late_decline_sdmt := p7.1 }, p7.2)

/-- Loop of the executive simulator's `derive_baselines` with a truthy
profile list. -/
def dbSome (profiles : List Profile) :
    Nat → Nat → RNG → Except String (List ExecBase × RNG)
  | 0, _, g => .ok ([], g)
  | k + 1, i, g =>
    match profiles[i]? with
    | none => .error "IndexError: list index out of range"
    | some p =>
      let pb := mkExecBase (perfFactorOf p) g
      (dbSome profiles k (i + 1) pb.2).map
        (fun pr => (pb.1 :: pr.1, pr.2))

/-- Loop of the executive simulator's `derive_baselines` with no profiles:
synthetic performance factors; cannot fail. -/
def dbNone : Nat → Nat → RNG → List ExecBase × RNG
  | 0, _, g => ([], g)
  | k + 1, i, g =>
    let pf := pyUniform 0.55 0.95 g
    let pb := mkExecBase pf.1 pf.2
    let pr := dbNone k (i + 1) pb.2
    (pb.1 :: pr.1, pr.2)

/-- `derive_baselines(num_patients, patient_profiles)` of the
executive-function simulator. -/
def derive_baselines (num_patients : Nat)
    (profilesOpt : Option (List Profile)) (g : RNG) :
    Except String (List ExecBase × RNG) :=
  match profilesOpt with
  | some (p₀ :: ps) => dbSome (p₀ :: ps) num_patients 0 g
  | _ => .ok (dbNone num_patients 0 g)

/-- Pre-noise trend of `simulate_exec_day` (source lines 97–104): practice
through day 4, plateau, then — for EVERY patient — a late worsening term
after day 10.  Returns the `(tmt, sdmt)` trend means. -/
def execTrend (base : ExecBase) (day_index : Nat) : ℚ × ℚ :=
  if day_index ≤ 4 then
    (base.tmt_base - base.practice_gain_tmt * (day_index : ℚ),
     base.sdmt_base + base.practice_gain_sdmt * (day_index : ℚ))
  else
    (base.tmt_base - base.practice_gain_tmt * 4
       + base.late_decline_tmt * ((max 0 ((day_index : Int) - 10) : Int) : ℚ),
     base.sdmt_base + base.practice_gain_sdmt * 4
       - base.late_decline_sdmt * ((max 0 ((day_index : Int) - 10) : Int) : ℚ))

/-- Metrics block of one executive-function record. -/
structure ExecMetrics where
  tmt_b_completion_sec : Int
  errors : Int
  symbol_digit_correct : Int
deriving DecidableEq, Repr

/-- `simulate_exec_day(base, day_index)`. -/
def simulate_exec_day (base : ExecBase) (day_index : Nat) (g : RNG) :
    ExecMetrics × RNG :=
  let t := execTrend base day_index
  let p1 := normalvariate t.1 6 g
  let p2 := normalvariate t.2 2.5 p1.2
  let tmt := max 55 (min p1.1 300)
  let sdmt := max 10 (min p2.1 80)
  let errors_mean := (tmt - 60) / 50
  let p3 := normalvariate errors_mean 1 p2.2
  let errors := min (max 0 (pyInt p3.1)) 12
  ({ tmt_b_completion_sec := pyRound tmt, errors := errors,
     symbol_digit_correct := pyRound sdmt }, p3.2)

end ExecSim

namespace MobilitySim

open CareHaven

/-- Metrics block plus signal quality of one mobility record. -/
structure MobMetrics where
  gait_speed_mps : ℚ
  stride_variability_pct : ℚ
  daily_steps : Int
  fall_detected : Bool
deriving DecidableEq, Repr

/-- `simulate_mobility_metrics()`. -/
def simulate_mobility_metrics (g : RNG) : (MobMetrics × ℚ) × RNG :=
  let p1 := normalvariate 0.9 0.15 g
  let gait_speed := max 0.4 (min (pyRound2 p1.1) 1.5)
  let p2 := normalvariate 14 5 p1.2
  let stride_var := max 5 (min (pyRound1 p2.1) 30)
  let p3 := normalvariate 4000 1500 p2.2
  let daily_steps := max 500 (min (pyInt p3.1) 15000)
  let p4 := pyRandom p3.2
  let fall_detected := decide (0.98 ≤ p4.1)
  let p5 := pyUniform 0.85 1.0 p4.2
  let signal_quality := pyRound2 p5.1
  (({ gait_speed_mps := gait_speed, stride_variability_pct := stride_var,
      daily_steps := daily_steps, fall_detected := fall_detected },
    signal_quality), p5.2)

/-- One emitted mobility record. -/
structure MobRecord where
  device_id : String
  patient_id : String
  timestamp : Int
  domain : String
  metrics : MobMetrics
  signal_quality : ℚ
deriving DecidableEq, Repr

/-- Profile filter of the mobility resolver (source lines 55–61): a
profile is kept only when BOTH its `patient_id` and its wearable device id
are truthy; all others are skipped. -/
def mobPairs (slice : List Profile) : List (String × String) :=
  slice.filterMap fun p =>
    if strTruthy p.patient_id && strTruthy p.wearable then
      some (p.patient_id.getD "", p.wearable.getD "")
    else none

/-- Synthetic fill of the mobility resolver (source lines 64–67): fresh
`uuid4` ids paired with positional `WEAR-{idx:03d}` devices until the
requested count is reached. -/
def mobFill (pairs : List (String × String)) (num : Nat)
    (uuids : Nat → String) : List (String × String) :=
  pairs ++ (List.range' pairs.length (num - pairs.length)).map
    (fun j => (uuids j, "WEAR-" ++ pad3 (j + 1)))

/-- Day loop for one mobility patient (source lines 73–88). -/
def mobDays (pid dev_id : String) (start_date : Int) :
    Nat → Nat → RNG → List MobRecord × RNG
  | 0, _, g => ([], g)
  | k + 1, day, g =>
    let ph := pyRandint 6 22 g
    let pm := pyRandint 0 59 ph.2
    let timestamp := start_date + 1440 * (day : Int) + 60 * ph.1 + pm.1
    let ps := simulate_mobility_metrics pm.2
    let record : MobRecord :=
      { device_id := dev_id, patient_id := pid, timestamp := timestamp,
        domain := "mobility", metrics := ps.1.1,
        signal_quality := ps.1.2 }
    let pr := mobDays pid dev_id start_date k (day + 1) ps.2
    (record :: pr.1, pr.2)

/-- Patient loop of the mobility simulator. -/
def mobAll (start_date : Int) (days : Nat) :
    List (String × String) → RNG → List MobRecord × RNG
  | [], g => ([], g)
  | (pid, dev) :: rest, g =>
    let pd := mobDays pid dev start_date days 0 g
    let pa := mobAll start_date days rest pd.2
    (pd.1 ++ pa.1, pa.2)

/-- `generate_dataset(num_patients, days, start_date, patient_profiles)` of
the mobility simulator (`simulate_cognitive_data.py`; it takes no seed).
Returns the console messages together with the records. -/
def generate_dataset (num_patients days : Int) (start_date : Int)
    (patient_profiles : Option (List Profile)) (uuids : Nat → String)
    (g0 : RNG) : Except String (List String × List MobRecord) :=
  if num_patients ≤ 0 then .error "ValueError: num_patients must be > 0"
  else if days ≤ 0 then .error "ValueError: days must be > 0"
  else
    match patient_profiles with
    | some (p₀ :: ps) =>
      let profiles := p₀ :: ps
      let shortage := profiles.length < num_patients.toNat
      let warns : List String :=
        if shortage then [MemorySim.warnMsg num_patients.toNat profiles.length]
        else []
      let num' := if shortage then profiles.length else num_patients.toNat
      let slice := profiles.take num'
      let kept := mobPairs slice
      let warns := warns ++
        (if kept.length < num' then
          ["[WARN] Some profiles missing wearable IDs; generating synthetic for missing."]
        else [])
      let id_pairs := mobFill kept num' uuids
      .ok (warns ++
        ["Reused " ++ toString id_pairs.length ++ " patient IDs from profiles."],
        (mobAll start_date days.toNat id_pairs g0).1)
    | _ =>
      let id_pairs := (List.range num_patients.toNat).map
        (fun i => (uuids i, "WEAR-" ++ pad3 (i + 1)))
      .ok ([], (mobAll start_date days.toNat id_pairs g0).1)

end MobilitySim

namespace CareHaven

/-- Spec-side clamp: `clamp(x, lo, hi)` as written in the specification. -/
def clampSpec (x lo hi : ℚ) : ℚ :=
  if x < lo then lo else if hi < x then hi else x

/-- A fixed seed-to-stream map for concrete evaluation (all standard scores
zero, so every Gaussian lands on its mean). -/
def sfn0 : Int → Nat → ℚ := fun _ _ => 0

/-- A concrete ambient generator state (all draws zero). -/
def rng0 : RNG := ⟨fun _ => 0, 0⟩

/-- A second concrete ambient generator state (all draws one quarter). -/
def rng1 : RNG := ⟨fun _ => 1/4, 0⟩

/-- One concrete `uuid4` entropy source. -/
def uuidsA : Nat → String := fun _ => "uuid-a"

/-- A different concrete `uuid4` entropy source (a second process run). -/
def uuidsB : Nat → String := fun _ => "uuid-b"

/-- A complete cognitive baseline with `mmse = 27`, `moca = 27`
(cognitive factor `0.9`). -/
def cb2727 : CogBaseline := ⟨some 27, some 27, some 6⟩

/-- A fully-populated profile whose cognitive factor is `0.9`. -/
def profile90 : Profile :=
  ⟨some "P-90", some "SPK-A", some "CLIN-A", some "APP-A", some "WEAR-A",
   some cb2727⟩

/-- A (truthy) profile with a patient id but no `cognitive_baseline` key. -/
def profileNoCB : Profile := ⟨some "P-nc", none, none, none, none, none⟩

/-- A (truthy) profile with a cognitive baseline but no patient id. -/
def profileNoPid : Profile := ⟨none, none, none, none, none, some cb2727⟩

/-- A second fully-populated profile, distinct patient id. -/
def profile91 : Profile :=
  ⟨some "P-91", some "SPK-B", some "CLIN-B", some "APP-B", some "WEAR-B",
   some cb2727⟩

end CareHaven

namespace Multidomain

open CareHaven

/-- A concrete composite run: one patient (`profile90`), one day,
seed 0, all-zero draw stream. -/
def mdSample : List MDRecord :=
  (generate_dataset 1 1 0 (some 0) (some [profile90]) sfn0 uuidsA
    rng0).toOption.getD []

/-- Placeholder record used only as a `headD` default. -/
def mdDefault : MDRecord :=
  ⟨"", "", 0, ⟨2, 0, 1, 3, 1, 300, 0, 0, 0, false, false, 350, 0, 0, 0⟩⟩

/-- The first record of the concrete composite run. -/
def mdRec0 : MDRecord := mdSample.headD mdDefault

end Multidomain

namespace ExecSim

open CareHaven

/-- The executive baseline derived for `profile90` (cognitive factor `0.9`)
under the all-zero draw stream. -/
def execBase90 : ExecBase := (mkExecBase (perfFactorOf profile90) rng0).1

end ExecSim

namespace MemorySim

open CareHaven

/-- A concrete memory baseline (cognitive factor `5/6`, all-zero draws). -/
def memBase0 : MemBase := (mkMemBase (5/6) rng0).1

end MemorySim

namespace CareHaven

theorem max_min_eq_clampSpec (q lo hi : ℚ) (h : lo ≤ hi) :
    max lo (min hi q) = clampSpec q lo hi := by
  unfold clampSpec
  rcases lt_or_le q lo with h1 | h1
  · rw [if_pos h1, min_eq_right (le_of_lt (lt_of_lt_of_le h1 h)),
      max_eq_left (le_of_lt h1)]
  · rw [if_neg (not_lt.mpr h1)]
    rcases lt_or_le hi q with h2 | h2
    · rw [if_pos h2, min_eq_left (le_of_lt h2), max_eq_right h]
    · rw [if_neg (not_lt.mpr h2), min_eq_right h2, max_eq_right h1]

theorem pyRandint_fst_bounds (a b : Int) (g : RNG) (h : a ≤ b) :
    a ≤ (pyRandint a b g).1 ∧ (pyRandint a b g).1 ≤ b := by
  unfold pyRandint RNG.next
  dsimp only
  have h1 := Int.emod_nonneg ⌊g.stream g.idx⌋ (by omega : b - a + 1 ≠ 0)
  have h2 := Int.emod_lt_of_pos ⌊g.stream g.idx⌋ (by omega : (0:Int) < b - a + 1)
  omega

theorem le_pyInt (n : Int) (x : ℚ) (hn : 0 ≤ n) (hx : (n : ℚ) ≤ x) :
    n ≤ pyInt x := by
  unfold pyInt
  have hx0 : ¬ x < 0 := not_lt.mpr (le_trans (by exact_mod_cast hn) hx)
  rw [if_neg hx0]
  exact Int.le_floor.mpr hx

theorem orStr_of_truthy (o : Option String) (d : String)
    (h : strTruthy o = true) : orStr o d = o.getD "" := by
  cases o with
  | none => simp [strTruthy] at h
  | some s =>
    simp only [strTruthy, Bool.not_eq_true'] at h
    simp [orStr, h]

theorem orStr_of_falsy (o : Option String) (d : String)
    (h : strTruthy o = false) : orStr o d = d := by
  cases o with
  | none => rfl
  | some s =>
    simp only [strTruthy, Bool.not_eq_false'] at h
    simp [orStr, h]

end CareHaven

namespace Multidomain

open CareHaven

theorem simulate_session_bounds (st : PState) (day : Nat) (g : RNG) :
    2 ≤ (simulate_session st day g).1.digit_span_max
    ∧ (simulate_session st day g).1.digit_span_max ≤ 8
    ∧ 0 ≤ (simulate_session st day g).1.sentiment_score
    ∧ (simulate_session st day g).1.sentiment_score ≤ 1
    ∧ 0 ≤ (simulate_session st day g).1.narrative_coherence
    ∧ (simulate_session st day g).1.narrative_coherence ≤ 1
    ∧ 350 ≤ (simulate_session st day g).1.avg_reaction_time_ms
    ∧ 0 ≤ (simulate_session st day g).1.delayed_recall
    ∧ (simulate_session st day g).1.delayed_recall
        ≤ (simulate_session st day g).1.immediate_recall
    ∧ (simulate_session st day g).1.immediate_recall ≤ 5 := by
  simp only [simulate_session, normalvariate, pyRandom, RNG.next]
  refine ⟨le_max_left _ _, max_le (by norm_num) (min_le_right _ _),
    le_trans (by norm_num) (le_max_left _ _),
    max_le (by norm_num) (le_trans (min_le_left _ _) (by norm_num)),
    le_trans (by norm_num) (le_max_left _ _),
    max_le (by norm_num) (le_trans (min_le_left _ _) (by norm_num)),
    le_pyInt 350 _ (by norm_num) (le_trans (by norm_num) (le_max_left _ _)),
    le_max_left _ _,
    max_le (le_max_left _ _) (min_le_left _ _),
    max_le (by norm_num) (min_le_left _ _)⟩

end Multidomain

namespace Multidomain

open CareHaven

theorem generate_dataset_ok_shape (np days sd : Int) (seed : Option Int)
    (profiles : Option (List Profile)) (sfn : Int → Nat → ℚ)
    (uuids : Nat → String) (g : RNG) (records : List MDRecord)
    (hok : generate_dataset np days sd seed profiles sfn uuids g
      = .ok records) :
    ∃ sg : List PState × RNG,
      records = (genAll sd days.toNat sg.1 sg.2).1 := by
  unfold generate_dataset at hok
  split at hok
  · cases hok
  split at hok
  · cases hok
  split at hok
  all_goals
    dsimp only at hok
    split at hok
    · cases hok
    · injection hok with h
      exact ⟨_, h.symm⟩

theorem genDays_mem (st : PState) (sd : Int) :
    ∀ (k day : Nat) (g : RNG) (r : MDRecord),
      r ∈ (genDays st sd k day g).1 →
      ∃ (d : Nat) (g' : RNG), r.metrics = (simulate_session st d g').1 := by
  intro k
  induction k with
  | zero => intro day g r h; simp [genDays] at h
  | succ n ih =>
    intro day g r h
    simp only [genDays] at h
    rcases List.mem_cons.mp h with hr | hr
    · subst hr
      exact ⟨day, _, rfl⟩
    · exact ih (day + 1) _ r hr

theorem genAll_mem (sd : Int) (days : Nat) :
    ∀ (states : List PState) (g : RNG) (r : MDRecord),
      r ∈ (genAll sd days states g).1 →
      ∃ (st : PState) (d : Nat) (g' : RNG),
        r.metrics = (simulate_session st d g').1 := by
  intro states
  induction states with
  | nil => intro g r h; simp [genAll] at h
  | cons st rest ih =>
    intro g r h
    simp only [genAll] at h
    rcases List.mem_append.mp h with hr | hr
    · obtain ⟨d, g', hm⟩ := genDays_mem st sd days 0 _ r hr
      exact ⟨st, d, g', hm⟩
    · exact ih _ r hr

end Multidomain

namespace MemorySim

open CareHaven

theorem simulate_memory_day_order (base : MemBase) (day : Nat) (g : RNG) :
    0 ≤ (simulate_memory_day base day g).1.delayed_recall_correct
    ∧ (simulate_memory_day base day g).1.delayed_recall_correct
        ≤ (simulate_memory_day base day g).1.immediate_recall_correct
    ∧ (simulate_memory_day base day g).1.immediate_recall_correct ≤ 5 := by
  simp only [simulate_memory_day, normalvariate, pyRandom, RNG.next, MAX_WORDS]
  exact ⟨le_max_left _ _,
    max_le (le_max_left _ _) (le_trans (min_le_left _ _) (min_le_right _ _)),
    max_le (by norm_num) (min_le_right _ _)⟩

end MemorySim

open CareHaven

/-- C1: every record emitted by the multi-domain `generate_dataset`
(any positive patient/day counts, any seed, any profiles, any draw stream)
has `digit_span_max ∈ [2,8]`, `sentiment_score` and `narrative_coherence`
in `[0,1]`, `avg_reaction_time_ms ≥ 350`, and a memory block satisfying
`0 ≤ delayed_recall ≤ immediate_recall ≤ 5`; the memory simulator's
`simulate_memory_day` obeys the same hard recall ordering. -/
theorem C1_record_bounds :
    (∀ (np days sd : Int) (seed : Option Int)
        (profiles : Option (List Profile)) (sfn : Int → Nat → ℚ)
        (uuids : Nat → String) (g : RNG) (records : List Multidomain.MDRecord)
        (r : Multidomain.MDRecord),
      0 < np → 0 < days →
      Multidomain.generate_dataset np days sd seed profiles sfn uuids g
        = .ok records →
      r ∈ records →
      2 ≤ r.metrics.digit_span_max ∧ r.metrics.digit_span_max ≤ 8
      ∧ 0 ≤ r.metrics.sentiment_score ∧ r.metrics.sentiment_score ≤ 1
      ∧ 0 ≤ r.metrics.narrative_coherence ∧ r.metrics.narrative_coherence ≤ 1
      ∧ 350 ≤ r.metrics.avg_reaction_time_ms
      ∧ 0 ≤ r.metrics.delayed_recall
      ∧ r.metrics.delayed_recall ≤ r.metrics.immediate_recall
      ∧ r.metrics.immediate_recall ≤ 5)
    ∧ (∀ (base : MemorySim.MemBase) (day : Nat) (g : RNG),
      0 ≤ (MemorySim.simulate_memory_day base day g).1.delayed_recall_correct
      ∧ (MemorySim.simulate_memory_day base day g).1.delayed_recall_correct
          ≤ (MemorySim.simulate_memory_day base day g).1.immediate_recall_correct
      ∧ (MemorySim.simulate_memory_day base day g).1.immediate_recall_correct
          ≤ 5) := by
  constructor
  · intro np days sd seed profiles sfn uuids g records r hnp hdays hok hr
    obtain ⟨sg, hrec⟩ := Multidomain.generate_dataset_ok_shape np days sd seed
      profiles sfn uuids g records hok
    subst hrec
    obtain ⟨st, d, g', hm⟩ :=
      Multidomain.genAll_mem sd days.toNat sg.1 sg.2 r hr
    rw [hm]
    exact Multidomain.simulate_session_bounds st d g'
  · exact MemorySim.simulate_memory_day_order


/-- Witness for C1: the concrete one-patient one-day run `mdSample`
produces a record satisfying all the bounds, and a concrete memory day
satisfies the recall ordering. -/
theorem C1_record_bounds_witness :
    (2 ≤ Multidomain.mdRec0.metrics.digit_span_max
     ∧ Multidomain.mdRec0.metrics.digit_span_max ≤ 8
     ∧ 0 ≤ Multidomain.mdRec0.metrics.sentiment_score
     ∧ Multidomain.mdRec0.metrics.sentiment_score ≤ 1
     ∧ 0 ≤ Multidomain.mdRec0.metrics.narrative_coherence
     ∧ Multidomain.mdRec0.metrics.narrative_coherence ≤ 1
     ∧ 350 ≤ Multidomain.mdRec0.metrics.avg_reaction_time_ms
     ∧ 0 ≤ Multidomain.mdRec0.metrics.delayed_recall
     ∧ Multidomain.mdRec0.metrics.delayed_recall
         ≤ Multidomain.mdRec0.metrics.immediate_recall
     ∧ Multidomain.mdRec0.metrics.immediate_recall ≤ 5)
    ∧ (0 ≤ (MemorySim.simulate_memory_day MemorySim.memBase0 0
          rng0).1.delayed_recall_correct
       ∧ (MemorySim.simulate_memory_day MemorySim.memBase0 0
          rng0).1.delayed_recall_correct
           ≤ (MemorySim.simulate_memory_day MemorySim.memBase0 0
              rng0).1.immediate_recall_correct
       ∧ (MemorySim.simulate_memory_day MemorySim.memBase0 0
          rng0).1.immediate_recall_correct ≤ 5) :=
  ⟨C1_record_bounds.1 1 1 0 (some 0) (some [profile90]) sfn0 uuidsA rng0
      Multidomain.mdSample Multidomain.mdRec0 (by norm_num) (by norm_num)
      (by rfl)
      (by rw [show Multidomain.mdSample = [Multidomain.mdRec0] from rfl]
          exact List.mem_singleton_self _),
   C1_record_bounds.2 MemorySim.memBase0 0 rng0⟩

/-- C3: the probability `simulate_session` compares against
`random.random()` for the intrusion flag is exactly the spec's affine
formula clipped to `[0.01, 0.40]`, and the emitted `intrusion_errors`
value is always the Bernoulli flag 0 or 1. -/
theorem C3_intrusion_probability :
    (∀ (imm delayed : Int) (cf : ℚ) (dep : Int),
      Multidomain.intrusionUsedProb imm delayed cf dep
        = clampSpec
            (0.10 + 0.05 * max 0 ((imm : ℚ) - (delayed : ℚ))
              + 0.16 * max 0 (0.55 - cf) + 0.12 * ((dep : ℚ) / 30))
            0.01 0.40)
    ∧ (∀ (st : Multidomain.PState) (day : Nat) (g : RNG),
      (Multidomain.simulate_session st day g).1.intrusion_errors = 0
      ∨ (Multidomain.simulate_session st day g).1.intrusion_errors = 1) := by
  constructor
  · intro imm delayed cf dep
    unfold Multidomain.intrusionUsedProb
    rw [max_min_eq_clampSpec _ _ _ (by norm_num)]
    congr 1
    ring
  · intro st day g
    simp only [Multidomain.simulate_session, normalvariate, pyRandom,
      RNG.next]
    split
    · exact Or.inr rfl
    · exact Or.inl rfl

/-- C6: the cognitive factor of `extract_baselines` is
`clamp((mmse + moca) / 60, 0.3, 1.0)` and is monotonically non-decreasing
in `mmse` and in `moca`. -/
theorem C6_cognitive_factor :
    (∀ mmse moca : Int,
      Multidomain.cognitive_factor mmse moca
        = clampSpec (((mmse + moca : Int) : ℚ) / 60) 0.3 1.0)
    ∧ (∀ m m' c : Int, m ≤ m' →
      Multidomain.cognitive_factor m c ≤ Multidomain.cognitive_factor m' c)
    ∧ (∀ m c c' : Int, c ≤ c' →
      Multidomain.cognitive_factor m c
        ≤ Multidomain.cognitive_factor m c') := by
  refine ⟨fun mmse moca => max_min_eq_clampSpec _ _ _ (by norm_num), ?_, ?_⟩
  · intro m m' c h
    unfold Multidomain.cognitive_factor
    have hd : ((m + c : Int) : ℚ) / 60 ≤ ((m' + c : Int) : ℚ) / 60 := by
      have hc : ((m + c : Int) : ℚ) ≤ ((m' + c : Int) : ℚ) := by
        exact_mod_cast add_le_add_right h c
      linarith
    exact max_le_max le_rfl (min_le_min le_rfl hd)
  · intro m c c' h
    unfold Multidomain.cognitive_factor
    have hd : ((m + c : Int) : ℚ) / 60 ≤ ((m + c' : Int) : ℚ) / 60 := by
      have hc : ((m + c : Int) : ℚ) ≤ ((m + c' : Int) : ℚ) := by
        exact_mod_cast add_le_add_left h m
      linarith
    exact max_le_max le_rfl (min_le_min le_rfl hd)

/-- Witness for C6 at concrete scores. -/
theorem C6_cognitive_factor_witness :
    Multidomain.cognitive_factor 26 24
      = clampSpec (((26 + 24 : Int) : ℚ) / 60) 0.3 1.0
    ∧ Multidomain.cognitive_factor 20 24 ≤ Multidomain.cognitive_factor 26 24
    ∧ Multidomain.cognitive_factor 26 20
        ≤ Multidomain.cognitive_factor 26 24 :=
  ⟨C6_cognitive_factor.1 26 24,
   C6_cognitive_factor.2.1 20 26 24 (by norm_num),
   C6_cognitive_factor.2.2 26 20 24 (by norm_num)⟩

/-- C5 counterexample: for a profile with no `cognitive_baseline` key, the
memory simulator's baseline derivation defaults `moca` to 23 (not 24), so
its cognitive factor is `49/60`, not the claimed `(26+24)/60`. -/
theorem C5_counterexample :
    MemorySim.cogFactorOf profileNoCB = 49 / 60
    ∧ (49 / 60 : ℚ) ≠ ((26 + 24 : Int) : ℚ) / 60 :=
  ⟨rfl, by norm_num⟩

/-- C5 amended: for a profile lacking `cognitive_baseline`, the multidomain
extractor substitutes `mmse=26, moca=24, depression_score=6` (cf `5/6`) and
the executive extractor `mmse=26, moca=24` (factor `5/6`); the memory
extractor instead uses `mmse=26, moca=23` (factor `49/60`) and reads no
depression score.  All are total (never raise). -/
theorem C5_defaults (p : Profile) (h : p.cognitive_baseline = none) :
    (∀ g : RNG,
      Multidomain.extract_baselines (some p) g = ((5 / 6, 26, 24, 6), g))
    ∧ ExecSim.perfFactorOf p = 5 / 6
    ∧ MemorySim.cogFactorOf p = 49 / 60 := by
  have hcf : Multidomain.cognitive_factor 26 24 = 5 / 6 := by
    norm_num [Multidomain.cognitive_factor]
  refine ⟨fun g => ?_, ?_, ?_⟩
  · simp [Multidomain.extract_baselines, h, hcf]
  · simp only [ExecSim.perfFactorOf, h]
    norm_num
  · simp only [MemorySim.cogFactorOf, h]
    norm_num

/-- Witness for C5 at the concrete profile `profileNoCB`. -/
theorem C5_defaults_witness :
    Multidomain.extract_baselines (some profileNoCB) rng0
      = ((5 / 6, 26, 24, 6), rng0)
    ∧ ExecSim.perfFactorOf profileNoCB = 5 / 6
    ∧ MemorySim.cogFactorOf profileNoCB = 49 / 60 :=
  ⟨(C5_defaults profileNoCB rfl).1 rng0,
   (C5_defaults profileNoCB rfl).2.1,
   (C5_defaults profileNoCB rfl).2.2⟩

/-- Concrete value of the executive baseline derived for `profile90` under
the all-zero draw stream. -/
theorem execBase90_val :
    ExecSim.execBase90 = ⟨98, 3, 57, 1 / 2, 3 / 5, 1 / 20, 1 / 20⟩ := by
  norm_num [ExecSim.execBase90, ExecSim.mkExecBase, ExecSim.perfFactorOf,
    profile90, cb2727, normalvariate, pyUniform, pyRandom, pyInt, RNG.next,
    rng0]

/-- C4 counterexample: in the executive-function simulator a patient with
performance factor `0.9` (above every cited impairment cutoff) still
exhibits the late-decline trend: both pre-noise trend values strictly
worsen from day 10 to day 11 (TMT-B time rises, symbol-digit count
falls). -/
theorem C4_counterexample :
    ExecSim.perfFactorOf profile90 = 0.9
    ∧ (0.55 : ℚ) < 0.9 ∧ (0.6 : ℚ) < 0.9
    ∧ (ExecSim.execTrend ExecSim.execBase90 10).1
        < (ExecSim.execTrend ExecSim.execBase90 11).1
    ∧ (ExecSim.execTrend ExecSim.execBase90 11).2
        < (ExecSim.execTrend ExecSim.execBase90 10).2 := by
  refine ⟨by norm_num [ExecSim.perfFactorOf, profile90, cb2727],
    by norm_num, by norm_num, ?_, ?_⟩ <;>
  · rw [execBase90_val]
    norm_num [ExecSim.execTrend]

/-- C4 amended: the multidomain simulator's decline term is identically
zero for any patient with `cf ≥ 0.55` on every day, and the memory
simulator samples a zero decline rate whenever `cog_factor ≥ 0.6`, making
its trend constant at the plateau value past the practice phase; the
executive-function simulator, by contrast, applies decline to everyone
(see the counterexample). -/
theorem C4_decline_gating :
    (∀ (cf : ℚ) (day : Nat), 0.55 ≤ cf → Multidomain.decayFactor cf day = 0)
    ∧ (∀ (cog : ℚ) (g : RNG), 0.6 ≤ cog →
        (MemorySim.mkMemBase cog g).1.late_decline_rate = 0)
    ∧ (∀ base : MemorySim.MemBase, base.late_decline_rate = 0 →
        ∀ day : Nat, 2 < day →
        MemorySim.memTrend base day
          = (base.immediate_base + 0.25 * 2,
             base.delayed_base + 0.20 * 2)) := by
  refine ⟨?_, ?_, ?_⟩
  · intro cf day h
    unfold Multidomain.decayFactor
    rw [if_neg]
    rintro ⟨h1, _⟩
    exact absurd h (not_le.mpr h1)
  · intro cog g h
    simp only [MemorySim.mkMemBase]
    rw [if_neg (not_lt.mpr h)]
    norm_num
  · intro base h day hday
    simp [MemorySim.memTrend, h, not_le.mpr hday]

/-- Witness for C4's amended statement at concrete inputs. -/
theorem C4_decline_gating_witness :
    Multidomain.decayFactor 0.9 25 = 0
    ∧ (MemorySim.mkMemBase (5 / 6) rng0).1.late_decline_rate = 0
    ∧ MemorySim.memTrend MemorySim.memBase0 20
        = (MemorySim.memBase0.immediate_base + 0.25 * 2,
           MemorySim.memBase0.delayed_base + 0.20 * 2) :=
  ⟨C4_decline_gating.1 0.9 25 (by norm_num),
   C4_decline_gating.2.1 (5 / 6) rng0 (by norm_num),
   C4_decline_gating.2.2 MemorySim.memBase0
     (C4_decline_gating.2.1 (5 / 6) rng0 (by norm_num)) 20 (by norm_num)⟩

namespace Multidomain

open CareHaven

theorem gpsSome_uuid_irrel (l : List Profile) (u₁ u₂ : Nat → String)
    (htr : ∀ q ∈ l, strTruthy q.patient_id = true) :
    ∀ (k i : Nat) (g : RNG),
      gpsSome l u₁ k i g = gpsSome l u₂ k i g := by
  intro k
  induction k with
  | zero => intro i g; rfl
  | succ n ih =>
    intro i g
    simp only [gpsSome]
    cases hip : l[i]? with
    | none => rfl
    | some profile =>
      have hmem : profile ∈ l := List.getElem?_mem hip
      dsimp only
      rw [orStr_of_truthy _ _ (htr profile hmem),
        orStr_of_truthy _ _ (htr profile hmem), ih]

/-- C2 counterexample: with a fixed seed and a fixed profile list whose
profile lacks a `patient_id`, the emitted patient id comes from
`uuid.uuid4()`, which `random.seed` does not govern, so two runs (differing
only in that entropy) disagree. -/
theorem C2_counterexample :
    generate_dataset 1 1 0 (some 0) (some [profileNoPid]) sfn0 uuidsA rng0
    ≠ generate_dataset 1 1 0 (some 0) (some [profileNoPid]) sfn0 uuidsB
        rng0 := fun hEq =>
  absurd
    (show (["uuid-a"] : List String) = ["uuid-b"] from
      congrArg
        (fun e => (e.toOption.getD []).map (fun r => r.patient_id)) hEq)
    (by decide)

end Multidomain

/-- C2 amended: with a fixed seed, a fixed non-empty profile list in which
every profile carries a (truthy) patient id, and fixed
(num_patients, days, start_date), two calls to the multidomain
`generate_dataset` agree exactly — whatever the ambient generator state and
whatever the `uuid4` entropy of each run.  (If some profile lacks a patient
id, or no profiles are supplied, the ids come from `uuid4`, which the seed
does not govern — see the counterexample.) -/
theorem C2_determinism (sfn : Int → Nat → ℚ) (s np days sd : Int)
    (p : Profile) (ps : List Profile) (uuids₁ uuids₂ : Nat → String)
    (g₁ g₂ : RNG)
    (htr : ∀ q ∈ p :: ps, strTruthy q.patient_id = true) :
    Multidomain.generate_dataset np days sd (some s) (some (p :: ps)) sfn
      uuids₁ g₁
    = Multidomain.generate_dataset np days sd (some s) (some (p :: ps)) sfn
      uuids₂ g₂ := by
  unfold Multidomain.generate_dataset
  by_cases h1 : np ≤ 0
  · rw [if_pos h1, if_pos h1]
  rw [if_neg h1, if_neg h1]
  by_cases h2 : days ≤ 0
  · rw [if_pos h2, if_pos h2]
  rw [if_neg h2, if_neg h2]
  dsimp only [seeded]
  rw [show (if (true = true) then some (p :: ps)
        else (none : Option (List Profile))) = some (p :: ps) from rfl]
  simp only [Multidomain.generate_patient_state]
  rw [Multidomain.gpsSome_uuid_irrel (p :: ps) uuids₁ uuids₂ htr]

/-- Witness for C2's amended statement: two concrete runs with different
uuid entropy and different ambient generator states coincide. -/
theorem C2_determinism_witness :
    Multidomain.generate_dataset 1 1 0 (some 0) (some [profile90]) sfn0
      uuidsA rng0
    = Multidomain.generate_dataset 1 1 0 (some 0) (some [profile90]) sfn0
      uuidsB rng1 :=
  C2_determinism sfn0 0 1 1 0 profile90 [] uuidsA uuidsB rng0 rng1
    (by intro q hq
        rw [List.mem_singleton] at hq
        subst hq
        rfl)

namespace Multidomain

open CareHaven

theorem gpsSome_err (l : List Profile) (u : Nat → String) :
    ∀ (k i : Nat) (g : RNG), l.length < i + k → i ≤ l.length →
      gpsSome l u k i g = .error "IndexError: list index out of range" := by
  intro k
  induction k with
  | zero => intro i g h1 h2; exact absurd h2 (by omega)
  | succ n ih =>
    intro i g h1 h2
    simp only [gpsSome]
    rcases Nat.lt_or_ge i l.length with hilt | hige
    · rw [List.getElem?_eq_getElem hilt]
      dsimp only
      rw [ih (i + 1) _ (by omega) (by omega)]
      rfl
    · rw [List.getElem?_eq_none hige]

theorem gpsSome_ok (l : List Profile) (u : Nat → String) :
    ∀ (k i : Nat) (g : RNG), i + k ≤ l.length →
      ∃ out : List PState × RNG, gpsSome l u k i g = .ok out := by
  intro k
  induction k with
  | zero => intro i g h; exact ⟨([], g), rfl⟩
  | succ n ih =>
    intro i g h
    have hilt : i < l.length := by omega
    simp only [gpsSome, List.getElem?_eq_getElem hilt]
    try dsimp only
    obtain ⟨out, hout⟩ := ih (i + 1) _ (by omega)
    rw [hout]
    exact ⟨_, rfl⟩

theorem md_err_np (np days sd : Int) (seed : Option Int)
    (profilesOpt : Option (List Profile)) (sfn : Int → Nat → ℚ)
    (uuids : Nat → String) (g : RNG) (h : np ≤ 0) :
    generate_dataset np days sd seed profilesOpt sfn uuids g
      = .error "ValueError: num_patients must be > 0" := by
  unfold generate_dataset
  rw [if_pos h]

theorem md_err_days (np days sd : Int) (seed : Option Int)
    (profilesOpt : Option (List Profile)) (sfn : Int → Nat → ℚ)
    (uuids : Nat → String) (g : RNG) (hnp : 0 < np) (h : days ≤ 0) :
    generate_dataset np days sd seed profilesOpt sfn uuids g
      = .error "ValueError: days must be > 0" := by
  unfold generate_dataset
  rw [if_neg (not_le.mpr hnp), if_pos h]

theorem md_shortage_error (np days sd : Int) (seed : Option Int)
    (p : Profile) (ps : List Profile) (sfn : Int → Nat → ℚ)
    (uuids : Nat → String) (g : RNG)
    (hshort : (p :: ps).length < np.toNat) (hdays : 0 < days) :
    generate_dataset np days sd seed (some (p :: ps)) sfn uuids g
      = .error "IndexError: list index out of range" := by
  unfold generate_dataset
  rw [if_neg (by omega : ¬ np ≤ 0), if_neg (not_le.mpr hdays)]
  try dsimp only
  try rw [show (if (true = true) then some (p :: ps)
      else (none : Option (List Profile))) = some (p :: ps) from rfl]
  try simp only [generate_patient_state]
  rw [gpsSome_err (p :: ps) uuids np.toNat 0 (seeded sfn seed g)
    (by omega) (by omega)]

theorem md_ok (np days sd : Int) (seed : Option Int)
    (profilesOpt : Option (List Profile)) (sfn : Int → Nat → ℚ)
    (uuids : Nat → String) (g : RNG) (hnp : 0 < np) (hdays : 0 < days)
    (hlen : ∀ p ps, profilesOpt = some (p :: ps)
      → np.toNat ≤ (p :: ps).length) :
    ∃ rs, generate_dataset np days sd seed profilesOpt sfn uuids g
      = .ok rs := by
  unfold generate_dataset
  rw [if_neg (not_le.mpr hnp), if_neg (not_le.mpr hdays)]
  rcases profilesOpt with _ | ⟨_ | ⟨p, ps⟩⟩
  · exact ⟨_, rfl⟩
  · exact ⟨_, rfl⟩
  · try dsimp only
    try rw [show (if (true = true) then some (p :: ps)
        else (none : Option (List Profile))) = some (p :: ps) from rfl]
    try simp only [generate_patient_state]
    obtain ⟨out, hout⟩ :=
      gpsSome_ok (p :: ps) uuids np.toNat 0 (seeded sfn seed g)
        (by simpa using hlen p ps rfl)
    rw [hout]
    exact ⟨_, rfl⟩

end Multidomain

namespace MemorySim

open CareHaven

theorem dbSome_ok (l : List Profile) :
    ∀ (k i : Nat) (g : RNG), i + k ≤ l.length →
      ∃ out : List MemBase × RNG,
        dbSome l k i g = .ok out ∧ out.1.length = k := by
  intro k
  induction k with
  | zero => intro i g h; exact ⟨([], g), rfl, rfl⟩
  | succ n ih =>
    intro i g h
    have hilt : i < l.length := by omega
    simp only [dbSome, List.getElem?_eq_getElem hilt]
    try dsimp only
    obtain ⟨out, hout, hlen⟩ := ih (i + 1) _ (by omega)
    rw [hout]
    exact ⟨_, rfl, by simp [hlen]⟩

theorem mem_err_np (np days sd : Int) (seed : Option Int)
    (profilesOpt : Option (List Profile)) (sfn : Int → Nat → ℚ)
    (uuids : Nat → String) (g : RNG) (h : np ≤ 0) :
    generate_dataset np days sd seed profilesOpt sfn uuids g
      = .error "ValueError: num_patients must be > 0" := by
  unfold generate_dataset
  rw [if_pos h]

theorem mem_err_days (np days sd : Int) (seed : Option Int)
    (profilesOpt : Option (List Profile)) (sfn : Int → Nat → ℚ)
    (uuids : Nat → String) (g : RNG) (hnp : 0 < np) (h : days ≤ 0) :
    generate_dataset np days sd seed profilesOpt sfn uuids g
      = .error "ValueError: days must be > 0" := by
  unfold generate_dataset
  rw [if_neg (not_le.mpr hnp), if_pos h]

theorem mem_ok (np days sd : Int) (seed : Option Int)
    (profilesOpt : Option (List Profile)) (sfn : Int → Nat → ℚ)
    (uuids : Nat → String) (g : RNG) (hnp : 0 < np) (hdays : 0 < days) :
    ∃ pr, generate_dataset np days sd seed profilesOpt sfn uuids g
      = .ok pr := by
  unfold generate_dataset
  rw [if_neg (not_le.mpr hnp), if_neg (not_le.mpr hdays)]
  rcases profilesOpt with _ | ⟨_ | ⟨p, ps⟩⟩
  · try dsimp only [derive_baselines]
    exact ⟨_, rfl⟩
  · try dsimp only [derive_baselines]
    exact ⟨_, rfl⟩
  · try dsimp only [derive_baselines]
    by_cases hs : (p :: ps).length < np.toNat
    · simp only [if_pos hs]
      obtain ⟨out, hout, -⟩ :=
        dbSome_ok (p :: ps) (p :: ps).length 0 (seeded sfn seed g) (by omega)
      rw [hout]
      exact ⟨_, rfl⟩
    · simp only [if_neg hs]
      obtain ⟨out, hout, -⟩ :=
        dbSome_ok (p :: ps) np.toNat 0 (seeded sfn seed g) (by omega)
      rw [hout]
      exact ⟨_, rfl⟩

end MemorySim

/-- C10: the multidomain `generate_dataset`, given a non-empty profile list
strictly shorter than `num_patients`, performs no reduction and fails with
an out-of-bounds `IndexError` while building patient state, producing no
records. -/
theorem C10_short_profiles_index_error
    (np days sd : Int) (seed : Option Int) (p : Profile) (ps : List Profile)
    (sfn : Int → Nat → ℚ) (uuids : Nat → String) (g : RNG)
    (hshort : (p :: ps).length < np.toNat) (hdays : 0 < days) :
    Multidomain.generate_dataset np days sd seed (some (p :: ps)) sfn uuids g
      = .error "IndexError: list index out of range" :=
  Multidomain.md_shortage_error np days sd seed p ps sfn uuids g hshort hdays

/-- Witness for C10: two requested patients against a one-profile list. -/
theorem C10_short_profiles_index_error_witness :
    Multidomain.generate_dataset 2 1 0 none (some [profile90]) sfn0 uuidsA
      rng0 = .error "IndexError: list index out of range" :=
  C10_short_profiles_index_error 2 1 0 none profile90 [] sfn0 uuidsA rng0
    (by simp) (by norm_num)

/-- C9 counterexample: the multidomain `generate_dataset` raises on a
positive patient count and positive day count (profile list of length 1
against 3 requested patients), so "raises iff `num_patients ≤ 0` or
`days ≤ 0`" fails on the cited code. -/
theorem C9_counterexample :
    (Multidomain.generate_dataset 3 2 0 none (some [profile91]) sfn0 uuidsA
      rng0 = .error "IndexError: list index out of range")
    ∧ ¬ ((3 : Int) ≤ 0 ∨ (2 : Int) ≤ 0) :=
  ⟨Multidomain.md_shortage_error 3 2 0 none profile91 [] sfn0 uuidsA rng0
    (by simp) (by norm_num), by norm_num⟩

/-- C9 amended: both validation errors fire before anything else (for any
profiles, seed, stream and uuid entropy); the memory `generate_dataset`
errors iff `num_patients ≤ 0` or `days ≤ 0`; the multidomain
`generate_dataset` errors iff additionally a non-empty profile list
shorter than `num_patients` was supplied (the `IndexError` of C10).  In
the `Except` embedding an error carries no partial record output. -/
theorem C9_error_iff :
    (∀ (np days sd : Int) (seed : Option Int)
        (profilesOpt : Option (List Profile)) (sfn : Int → Nat → ℚ)
        (uuids : Nat → String) (g : RNG),
      (np ≤ 0 →
        Multidomain.generate_dataset np days sd seed profilesOpt sfn uuids g
          = .error "ValueError: num_patients must be > 0"
        ∧ MemorySim.generate_dataset np days sd seed profilesOpt sfn uuids g
          = .error "ValueError: num_patients must be > 0")
      ∧ (0 < np → days ≤ 0 →
        Multidomain.generate_dataset np days sd seed profilesOpt sfn uuids g
          = .error "ValueError: days must be > 0"
        ∧ MemorySim.generate_dataset np days sd seed profilesOpt sfn uuids g
          = .error "ValueError: days must be > 0"))
    ∧ (∀ (np days sd : Int) (seed : Option Int)
        (profilesOpt : Option (List Profile)) (sfn : Int → Nat → ℚ)
        (uuids : Nat → String) (g : RNG),
      (∃ e, MemorySim.generate_dataset np days sd seed profilesOpt sfn uuids
          g = .error e) ↔ np ≤ 0 ∨ days ≤ 0)
    ∧ (∀ (np days sd : Int) (seed : Option Int)
        (profilesOpt : Option (List Profile)) (sfn : Int → Nat → ℚ)
        (uuids : Nat → String) (g : RNG),
      (∃ e, Multidomain.generate_dataset np days sd seed profilesOpt sfn
          uuids g = .error e)
        ↔ np ≤ 0 ∨ days ≤ 0
          ∨ ∃ (p : Profile) (ps : List Profile),
              profilesOpt = some (p :: ps)
              ∧ (p :: ps).length < np.toNat) := by
  refine ⟨?_, ?_, ?_⟩
  · intro np days sd seed po sfn uuids g
    exact ⟨fun h =>
        ⟨Multidomain.md_err_np np days sd seed po sfn uuids g h,
         MemorySim.mem_err_np np days sd seed po sfn uuids g h⟩,
      fun hnp h =>
        ⟨Multidomain.md_err_days np days sd seed po sfn uuids g hnp h,
         MemorySim.mem_err_days np days sd seed po sfn uuids g hnp h⟩⟩
  · intro np days sd seed po sfn uuids g
    constructor
    · rintro ⟨e, he⟩
      by_contra hne
      push_neg at hne
      obtain ⟨pr, hok⟩ :=
        MemorySim.mem_ok np days sd seed po sfn uuids g hne.1 hne.2
      rw [hok] at he
      cases he
    · intro h
      by_cases hnp : np ≤ 0
      · exact ⟨_, MemorySim.mem_err_np np days sd seed po sfn uuids g hnp⟩
      · rcases h with h | h
        · exact absurd h hnp
        · exact ⟨_, MemorySim.mem_err_days np days sd seed po sfn uuids g
            (not_le.mp hnp) h⟩
  · intro np days sd seed po sfn uuids g
    constructor
    · rintro ⟨e, he⟩
      by_contra hne
      push_neg at hne
      obtain ⟨hnp, hdays, hshort⟩ := hne
      obtain ⟨rs, hok⟩ :=
        Multidomain.md_ok np days sd seed po sfn uuids g hnp hdays hshort
      rw [hok] at he
      cases he
    · intro h
      by_cases hnp : np ≤ 0
      · exact ⟨_, Multidomain.md_err_np np days sd seed po sfn uuids g hnp⟩
      · by_cases hd : days ≤ 0
        · exact ⟨_, Multidomain.md_err_days np days sd seed po sfn uuids g
            (not_le.mp hnp) hd⟩
        · rcases h with h | h | ⟨p, ps, hpo, hlen⟩
          · exact absurd h hnp
          · exact absurd h hd
          · subst hpo
            exact ⟨_, Multidomain.md_shortage_error np days sd seed p ps sfn
              uuids g hlen (not_le.mp hd)⟩

/-- Witness for C9's amended statement at concrete inputs. -/
theorem C9_error_iff_witness :
    (Multidomain.generate_dataset 0 5 0 none none sfn0 uuidsA rng0
      = .error "ValueError: num_patients must be > 0")
    ∧ ((∃ e, MemorySim.generate_dataset 1 1 0 none none sfn0 uuidsA rng0
        = .error e) ↔ (1 : Int) ≤ 0 ∨ (1 : Int) ≤ 0)
    ∧ ((∃ e, Multidomain.generate_dataset 2 1 0 none (some [profile91]) sfn0
        uuidsA rng0 = .error e)
      ↔ (2 : Int) ≤ 0 ∨ (1 : Int) ≤ 0
        ∨ ∃ (p : Profile) (ps : List Profile),
            (some [profile91] : Option (List Profile)) = some (p :: ps)
            ∧ (p :: ps).length < (2 : Int).toNat) :=
  ⟨((C9_error_iff.1 0 5 0 none none sfn0 uuidsA rng0).1 (by norm_num)).1,
   C9_error_iff.2.1 1 1 0 none none sfn0 uuidsA rng0,
   C9_error_iff.2.2 2 1 0 none (some [profile91]) sfn0 uuidsA rng0⟩

namespace MemorySim

open CareHaven

theorem memDays_length (pid dev : String) (sd : Int) (base : MemBase) :
    ∀ (k day : Nat) (g : RNG),
      (memDays pid dev sd base k day g).1.length = k := by
  intro k
  induction k with
  | zero => intro day g; rfl
  | succ n ih =>
    intro day g
    simp only [memDays, List.length_cons, ih]

theorem memAll_length (sd : Int) (days : Nat) :
    ∀ (ts : List ((String × String) × MemBase)) (g : RNG),
      (memAll sd days ts g).1.length = ts.length * days := by
  intro ts
  induction ts with
  | nil => intro g; simp [memAll]
  | cons t rest ih =>
    rcases t with ⟨⟨pid, dev⟩, base⟩
    intro g
    simp only [memAll, List.length_append, memDays_length, ih,
      List.length_cons]
    ring

theorem memPids_length (slice : List Profile) (uuids : Nat → String) :
    (memPids slice uuids).length = slice.length := by
  simp [memPids]

theorem memDevs_length (slice : List Profile) :
    (memDevs slice).length = slice.length := by
  simp [memDevs]

theorem memPids_getElem (slice : List Profile) (uuids : Nat → String)
    (i : Nat) (hi : i < slice.length) :
    (memPids slice uuids)[i]?
      = some (orStr (slice.get ⟨i, hi⟩).patient_id (uuids i)) := by
  unfold memPids
  rw [List.getElem?_zipWith]
  simp [List.getElem?_eq_getElem, hi]

theorem memDevs_getElem (slice : List Profile) (i : Nat)
    (hi : i < slice.length) :
    (memDevs slice)[i]?
      = some (orStr (slice.get ⟨i, hi⟩).clinic ("CLIN-" ++ pad3 (i + 1))) := by
  unfold memDevs
  rw [List.getElem?_zipWith]
  simp [List.getElem?_eq_getElem, hi]

theorem mem_shortage (np days sd : Int) (seed : Option Int) (p : Profile)
    (ps : List Profile) (sfn : Int → Nat → ℚ) (uuids : Nat → String)
    (g : RNG) (hshort : (p :: ps).length < np.toNat) (hdays : 0 < days) :
    ∃ prints records,
      generate_dataset np days sd seed (some (p :: ps)) sfn uuids g
        = .ok (prints, records)
      ∧ warnMsg np.toNat (p :: ps).length ∈ prints
      ∧ records.length = (p :: ps).length * days.toNat := by
  unfold generate_dataset
  rw [if_neg (by omega : ¬ np ≤ 0), if_neg (not_le.mpr hdays)]
  try dsimp only
  simp only [if_pos hshort]
  try dsimp only [derive_baselines]
  obtain ⟨out, hout, hlen⟩ :=
    dbSome_ok (p :: ps) (p :: ps).length 0 (seeded sfn seed g) (by omega)
  rw [hout]
  refine ⟨_, _, rfl, by simp, ?_⟩
  simp [memAll_length, List.length_zip, memPids_length, memDevs_length, hlen]

end MemorySim

namespace MobilitySim

open CareHaven

theorem mobDays_length (pid dev : String) (sd : Int) :
    ∀ (k day : Nat) (g : RNG),
      (mobDays pid dev sd k day g).1.length = k := by
  intro k
  induction k with
  | zero => intro day g; rfl
  | succ n ih =>
    intro day g
    simp only [mobDays, List.length_cons, ih]

theorem mobAll_length (sd : Int) (days : Nat) :
    ∀ (pairs : List (String × String)) (g : RNG),
      (mobAll sd days pairs g).1.length = pairs.length * days := by
  intro pairs
  induction pairs with
  | nil => intro g; simp [mobAll]
  | cons pr rest ih =>
    rcases pr with ⟨pid, dev⟩
    intro g
    simp only [mobAll, List.length_append, mobDays_length, ih,
      List.length_cons]
    ring

theorem mobFill_length (pairs : List (String × String)) (num : Nat)
    (uuids : Nat → String) (h : pairs.length ≤ num) :
    (mobFill pairs num uuids).length = num := by
  simp [mobFill]
  omega

theorem mob_shortage (np days sd : Int) (p : Profile) (ps : List Profile)
    (uuids : Nat → String) (g : RNG)
    (hshort : (p :: ps).length < np.toNat) (hdays : 0 < days) :
    ∃ prints records,
      generate_dataset np days sd (some (p :: ps)) uuids g
        = .ok (prints, records)
      ∧ MemorySim.warnMsg np.toNat (p :: ps).length ∈ prints
      ∧ records.length = (p :: ps).length * days.toNat := by
  unfold generate_dataset
  rw [if_neg (by omega : ¬ np ≤ 0), if_neg (not_le.mpr hdays)]
  try dsimp only
  simp only [if_pos hshort]
  refine ⟨_, _, rfl, by simp, ?_⟩
  rw [mobAll_length, mobFill_length]
  exact le_trans (List.length_filterMap_le _ _) (by simp)

end MobilitySim

/-- C8 counterexample: the mobility resolver does NOT reuse the patient id
of a profile lacking a wearable id — it drops the profile and substitutes a
fully synthetic pair, so the single emitted record carries a `uuid4` id
("uuid-a") although the supplied profile's patient id was "P-nc". -/
theorem C8_counterexample :
    ((MobilitySim.generate_dataset 1 1 0 (some [profileNoCB]) uuidsA
        rng0).toOption.getD ([], [])).2.map (fun r => r.patient_id)
      = ["uuid-a"]
    ∧ profileNoCB.patient_id = some "P-nc"
    ∧ ("uuid-a" : String) ≠ "P-nc" :=
  ⟨rfl, rfl, by decide⟩

/-- C8 amended: for a non-empty profile list shorter than the requested
count, the memory and mobility `generate_dataset` both print the
non-fatal shortage warning and reduce the effective count to the available
number (emitting `available × days` records).  The memory resolver reuses
each used profile's `patient_id` when truthy (else a fresh `uuid4`) and
its clinic device id when truthy (else the positional `CLIN-{i+1:03d}`),
per the `orStr` semantics; the mobility resolver instead drops any profile
missing a truthy patient id or wearable id and fills with fully synthetic
pairs (see the counterexample). -/
theorem C8_resolver :
    (∀ (np days sd : Int) (seed : Option Int) (p : Profile)
        (ps : List Profile) (sfn : Int → Nat → ℚ) (uuids : Nat → String)
        (g : RNG), (p :: ps).length < np.toNat → 0 < days →
      ∃ prints records,
        MemorySim.generate_dataset np days sd seed (some (p :: ps)) sfn
          uuids g = .ok (prints, records)
        ∧ MemorySim.warnMsg np.toNat (p :: ps).length ∈ prints
        ∧ records.length = (p :: ps).length * days.toNat)
    ∧ (∀ (slice : List Profile) (uuids : Nat → String) (i : Nat)
        (hi : i < slice.length),
      (MemorySim.memPids slice uuids)[i]?
          = some (orStr (slice.get ⟨i, hi⟩).patient_id (uuids i))
      ∧ (MemorySim.memDevs slice)[i]?
          = some (orStr (slice.get ⟨i, hi⟩).clinic
              ("CLIN-" ++ pad3 (i + 1))))
    ∧ (∀ (o : Option String) (d : String),
        (strTruthy o = true → orStr o d = o.getD "")
        ∧ (strTruthy o = false → orStr o d = d))
    ∧ (∀ (np days sd : Int) (p : Profile) (ps : List Profile)
        (uuids : Nat → String) (g : RNG),
        (p :: ps).length < np.toNat → 0 < days →
      ∃ prints records,
        MobilitySim.generate_dataset np days sd (some (p :: ps)) uuids g
          = .ok (prints, records)
        ∧ MemorySim.warnMsg np.toNat (p :: ps).length ∈ prints
        ∧ records.length = (p :: ps).length * days.toNat) :=
  ⟨MemorySim.mem_shortage,
   fun slice uuids i hi =>
     ⟨MemorySim.memPids_getElem slice uuids i hi,
      MemorySim.memDevs_getElem slice i hi⟩,
   fun o d => ⟨orStr_of_truthy o d, orStr_of_falsy o d⟩,
   MobilitySim.mob_shortage⟩

/-- Witness for C8's amended statement at concrete inputs. -/
theorem C8_resolver_witness :
    (∃ prints records,
      MemorySim.generate_dataset 2 1 0 none (some [profile90]) sfn0 uuidsA
        rng0 = .ok (prints, records)
      ∧ MemorySim.warnMsg (2 : Int).toNat [profile90].length ∈ prints
      ∧ records.length = [profile90].length * (1 : Int).toNat)
    ∧ (MemorySim.memPids [profile90] uuidsA)[0]?
        = some (orStr ([profile90].get ⟨0, by norm_num⟩).patient_id
            (uuidsA 0))
    ∧ (MemorySim.memDevs [profile90])[0]?
        = some (orStr ([profile90].get ⟨0, by norm_num⟩).clinic
            ("CLIN-" ++ pad3 (0 + 1)))
    ∧ orStr (some "CLIN-A") "CLIN-001" = "CLIN-A"
    ∧ orStr none "CLIN-001" = "CLIN-001"
    ∧ (∃ prints records,
      MobilitySim.generate_dataset 2 1 0 (some [profile90]) uuidsA rng0
        = .ok (prints, records)
      ∧ MemorySim.warnMsg (2 : Int).toNat [profile90].length ∈ prints
      ∧ records.length = [profile90].length * (1 : Int).toNat) :=
  ⟨C8_resolver.1 2 1 0 none profile90 [] sfn0 uuidsA rng0 (by simp)
      (by norm_num),
   (C8_resolver.2.1 [profile90] uuidsA 0 (by norm_num)).1,
   (C8_resolver.2.1 [profile90] uuidsA 0 (by norm_num)).2,
   (C8_resolver.2.2.1 (some "CLIN-A") "CLIN-001").1 (by rfl),
   (C8_resolver.2.2.1 none "CLIN-001").2 rfl,
   C8_resolver.2.2.2 2 1 0 profile90 [] uuidsA rng0 (by simp) (by norm_num)⟩

namespace Multidomain

open CareHaven

theorem genDays_length (st : PState) (sd : Int) :
    ∀ (k day : Nat) (g : RNG), (genDays st sd k day g).1.length = k := by
  intro k
  induction k with
  | zero => intro day g; rfl
  | succ n ih =>
    intro day g
    simp only [genDays, List.length_cons, ih]

theorem genAll_length (sd : Int) (days : Nat) :
    ∀ (states : List PState) (g : RNG),
      (genAll sd days states g).1.length = states.length * days := by
  intro states
  induction states with
  | nil => intro g; simp [genAll]
  | cons st rest ih =>
    intro g
    simp only [genAll, List.length_append, genDays_length, ih,
      List.length_cons]
    ring

theorem genDays_spec (st : PState) (sd : Int) :
    ∀ (k day : Nat) (g : RNG),
      (∀ r ∈ (genDays st sd k day g).1, r.patient_id = st.patient_id)
      ∧ (((genDays st sd k day g).1.map
          (fun r => r.session_date)).Chain' (· < ·))
      ∧ (∀ r ∈ (genDays st sd k day g).1,
          sd + 1440 * (day : Int) + 480 ≤ r.session_date) := by
  intro k
  induction k with
  | zero =>
    intro day g
    refine ⟨?_, ?_, ?_⟩ <;> simp [genDays]
  | succ n ih =>
    intro day g
    obtain ⟨hm1, hm2⟩ := pyRandint_fst_bounds 0 50 g (by norm_num)
    obtain ⟨ihpid, ihchain, ihlb⟩ :=
      ih (day + 1) (simulate_session st day (pyRandint 0 50 g).2).2
    simp only [genDays]
    refine ⟨?_, ?_, ?_⟩
    · intro r hr
      rcases List.mem_cons.mp hr with hr | hr
      · subst hr; rfl
      · exact ihpid r hr
    · rw [List.map_cons, List.chain'_cons']
      refine ⟨?_, ihchain⟩
      intro b hb
      obtain ⟨r, hrmem, hrb⟩ :=
        List.mem_map.mp (List.mem_of_mem_head? hb)
      have hlb := ihlb r hrmem
      rw [← hrb]
      dsimp only
      push_cast at hlb ⊢
      omega
    · intro r hr
      rcases List.mem_cons.mp hr with hr | hr
      · subst hr
        dsimp only
        push_cast
        omega
      · have hlb := ihlb r hr
        push_cast at hlb ⊢
        omega

theorem genAll_spec (sd : Int) (days : Nat) :
    ∀ (states : List PState) (g : RNG),
      ∃ blocks : List (List MDRecord),
        (genAll sd days states g).1 = blocks.flatten
        ∧ List.Forall₂ (fun (st : PState) (b : List MDRecord) =>
            b.length = days
            ∧ (∀ r ∈ b, r.patient_id = st.patient_id)
            ∧ ((b.map (fun r => r.session_date)).Chain' (· < ·)))
          states blocks := by
  intro states
  induction states with
  | nil => intro g; exact ⟨[], by simp [genAll], List.Forall₂.nil⟩
  | cons st rest ih =>
    intro g
    obtain ⟨blocks, hflat, hfa⟩ := ih (genDays st sd days 0 g).2
    refine ⟨(genDays st sd days 0 g).1 :: blocks, ?_, ?_⟩
    · simp only [genAll, List.flatten_cons]
      rw [hflat]
    · exact List.Forall₂.cons
        ⟨genDays_length st sd days 0 g,
         (genDays_spec st sd days 0 g).1,
         (genDays_spec st sd days 0 g).2.1⟩ hfa

theorem gpsSome_ok_pids (l : List Profile) (u : Nat → String)
    (htr : ∀ q ∈ l, strTruthy q.patient_id = true) :
    ∀ (k i : Nat) (g : RNG), i + k ≤ l.length →
      ∃ (states : List PState) (g' : RNG),
        gpsSome l u k i g = .ok (states, g')
        ∧ states.map (fun st => st.patient_id)
            = ((l.drop i).take k).map (fun q => q.patient_id.getD "") := by
  intro k
  induction k with
  | zero => intro i g h; exact ⟨[], g, rfl, by simp⟩
  | succ n ih =>
    intro i g h
    have hilt : i < l.length := by omega
    simp only [gpsSome, List.getElem?_eq_getElem hilt]
    try dsimp only
    obtain ⟨states, g', hrec, hmap⟩ := ih (i + 1) _ (by omega)
    rw [hrec]
    refine ⟨_, _, rfl, ?_⟩
    rw [List.drop_eq_getElem_cons hilt, List.take_succ_cons, List.map_cons,
      List.map_cons]
    rw [orStr_of_truthy _ _ (htr _ (List.getElem_mem hilt))]
    exact congrArg _ hmap

theorem forall2_transport (days : Nat) :
    ∀ (states : List PState) (profiles : List Profile)
      (blocks : List (List MDRecord)),
      states.map (fun st => st.patient_id)
        = profiles.map (fun q => q.patient_id.getD "") →
      List.Forall₂ (fun (st : PState) (b : List MDRecord) =>
          b.length = days ∧ (∀ r ∈ b, r.patient_id = st.patient_id)
          ∧ ((b.map (fun r => r.session_date)).Chain' (· < ·)))
        states blocks →
      List.Forall₂ (fun (q : Profile) (b : List MDRecord) =>
          b.length = days ∧ (∀ r ∈ b, r.patient_id = q.patient_id.getD "")
          ∧ ((b.map (fun r => r.session_date)).Chain' (· < ·)))
        profiles blocks := by
  intro states
  induction states with
  | nil =>
    intro profiles blocks hmap hfa
    cases hfa
    cases profiles with
    | nil => exact List.Forall₂.nil
    | cons q qs => simp at hmap
  | cons st sts ih =>
    intro profiles blocks hmap hfa
    cases hfa with
    | cons hb hrest =>
      cases profiles with
      | nil => simp at hmap
      | cons q qs =>
        simp only [List.map_cons, List.cons.injEq] at hmap
        exact List.Forall₂.cons
          ⟨hb.1, fun r hr => (hb.2.1 r hr).trans hmap.1, hb.2.2⟩
          (ih qs _ hmap.2 hrest)

theorem flatten_map_pid (days : Nat) :
    ∀ (profiles : List Profile) (blocks : List (List MDRecord)),
      List.Forall₂ (fun (q : Profile) (b : List MDRecord) =>
          b.length = days ∧ (∀ r ∈ b, r.patient_id = q.patient_id.getD "")
          ∧ ((b.map (fun r => r.session_date)).Chain' (· < ·)))
        profiles blocks →
      blocks.flatten.map (fun r => r.patient_id)
        = profiles.flatMap
            (fun q => List.replicate days (q.patient_id.getD "")) := by
  intro profiles blocks hfa
  induction hfa with
  | nil => simp
  | cons hb hrest ih =>
    rename_i q b qs bs
    simp only [List.flatten_cons, List.map_append, List.flatMap_cons, ih]
    congr 1
    rw [List.eq_replicate_iff]
    refine ⟨by simp [hb.1], ?_⟩
    intro x hx
    obtain ⟨r, hr, hxr⟩ := List.mem_map.mp hx
    rw [← hxr]
    exact hb.2.1 r hr

theorem count_flatMap_profiles (d : Nat) :
    ∀ (l : List Profile) (s : String),
      (l.map (fun q => q.patient_id.getD "")).Nodup →
      s ∈ l.map (fun q => q.patient_id.getD "") →
      ((l.flatMap
          (fun q => List.replicate d (q.patient_id.getD ""))).count s)
        = d := by
  intro l
  induction l with
  | nil => intro s _ hs; simp at hs
  | cons q qs ih =>
    intro s hnd hs
    simp only [List.map_cons, List.nodup_cons] at hnd
    simp only [List.flatMap_cons, List.count_append]
    rcases List.mem_cons.mp hs with hst | hs'
    · have hst' : s = q.patient_id.getD "" := hst
      have hzero :
          ((qs.flatMap
              (fun q => List.replicate d (q.patient_id.getD ""))).count s)
            = 0 := by
        rw [List.count_eq_zero]
        intro hmem
        obtain ⟨q', hq', hrep⟩ := List.mem_flatMap.mp hmem
        have hx := List.eq_of_mem_replicate hrep
        apply hnd.1
        have hqq : q.patient_id.getD "" = q'.patient_id.getD "" := by
          rw [← hst']
          exact hx
        rw [hqq]
        exact List.mem_map.mpr ⟨q', hq', rfl⟩
      rw [hzero, List.count_replicate, if_pos (by simp [hst'])]
      omega
    · have ht : ¬ (q.patient_id.getD "" == s) = true := by
        simp only [beq_iff_eq]
        rintro rfl
        exact hnd.1 hs'
      rw [List.count_replicate, if_neg ht, ih s hnd.2 hs']
      omega

end Multidomain

/-- C7: with a supplied profile list of length exactly `num_patients` (all
patient ids present and distinct), the multidomain `generate_dataset`
succeeds with exactly `num_patients × days` records; the emitted patient
ids are precisely the supplied ids, each repeated exactly `days` times,
grouped in input-profile order (the record list splits into per-profile
blocks, in order, each of length `days` with strictly increasing session
dates). -/
theorem C7_counts (np days sd : Int) (seed : Option Int) (p : Profile)
    (ps : List Profile) (sfn : Int → Nat → ℚ) (uuids : Nat → String)
    (g : RNG)
    (hlen : (p :: ps).length = np.toNat) (hdays : 0 < days)
    (htr : ∀ q ∈ p :: ps, strTruthy q.patient_id = true)
    (hnd : ((p :: ps).map (fun q => q.patient_id.getD "")).Nodup) :
    ∃ records : List Multidomain.MDRecord,
      Multidomain.generate_dataset np days sd seed (some (p :: ps)) sfn
        uuids g = .ok records
      ∧ records.length = np.toNat * days.toNat
      ∧ records.map (fun r => r.patient_id)
          = (p :: ps).flatMap
              (fun q => List.replicate days.toNat (q.patient_id.getD ""))
      ∧ (∀ s ∈ (p :: ps).map (fun q => q.patient_id.getD ""),
          (records.map (fun r => r.patient_id)).count s = days.toNat)
      ∧ ∃ blocks : List (List Multidomain.MDRecord),
          records = blocks.flatten
          ∧ List.Forall₂
              (fun (q : Profile) (b : List Multidomain.MDRecord) =>
                b.length = days.toNat
                ∧ (∀ r ∈ b, r.patient_id = q.patient_id.getD "")
                ∧ ((b.map (fun r => r.session_date)).Chain' (· < ·)))
              (p :: ps) blocks := by
  have hl1 : (p :: ps).length = ps.length + 1 := List.length_cons p ps
  unfold Multidomain.generate_dataset
  rw [if_neg (by omega : ¬ np ≤ 0), if_neg (not_le.mpr hdays)]
  try dsimp only
  try rw [show (if (true = true) then some (p :: ps)
      else (none : Option (List Profile))) = some (p :: ps) from rfl]
  try simp only [Multidomain.generate_patient_state]
  obtain ⟨states, g', hgps, hmap⟩ :=
    Multidomain.gpsSome_ok_pids (p :: ps) uuids htr np.toNat 0
      (seeded sfn seed g) (by omega)
  rw [hgps]
  rw [List.drop_zero, ← hlen, List.take_length] at hmap
  obtain ⟨blocks, hflat, hfa⟩ :=
    Multidomain.genAll_spec sd days.toNat states g'
  have hfa' :=
    Multidomain.forall2_transport days.toNat states (p :: ps) blocks hmap hfa
  have hmappid := Multidomain.flatten_map_pid days.toNat (p :: ps) blocks hfa'
  have hslen : states.length = (p :: ps).length := by
    have hc := congrArg List.length hmap
    simpa using hc
  refine ⟨_, rfl, ?_, ?_, ?_, blocks, hflat, hfa'⟩
  · rw [Multidomain.genAll_length, hslen, hlen]
  · rw [hflat, hmappid]
  · intro s hs
    rw [hflat, hmappid]
    exact Multidomain.count_flatMap_profiles days.toNat (p :: ps) s hnd hs

/-- Witness for C7: two profiles with distinct patient ids, one day. -/
theorem C7_counts_witness :
    ∃ records : List Multidomain.MDRecord,
      Multidomain.generate_dataset 2 1 0 none (some [profile90, profile91])
        sfn0 uuidsA rng0 = .ok records
      ∧ records.length = (2 : Int).toNat * (1 : Int).toNat
      ∧ records.map (fun r => r.patient_id)
          = [profile90, profile91].flatMap
              (fun q =>
                List.replicate (1 : Int).toNat (q.patient_id.getD ""))
      ∧ (∀ s ∈ [profile90, profile91].map (fun q => q.patient_id.getD ""),
          (records.map (fun r => r.patient_id)).count s = (1 : Int).toNat)
      ∧ ∃ blocks : List (List Multidomain.MDRecord),
          records = blocks.flatten
          ∧ List.Forall₂
              (fun (q : Profile) (b : List Multidomain.MDRecord) =>
                b.length = (1 : Int).toNat
                ∧ (∀ r ∈ b, r.patient_id = q.patient_id.getD "")
                ∧ ((b.map (fun r => r.session_date)).Chain' (· < ·)))
              [profile90, profile91] blocks :=
  C7_counts 2 1 0 none profile90 [profile91] sfn0 uuidsA rng0 (by simp)
    (by norm_num)
    (by
      intro q hq
      rcases List.mem_cons.mp hq with h | h
      · subst h; rfl
      · rcases List.mem_cons.mp h with h | h
        · subst h; rfl
        · simp at h)
    (by simp [profile90, profile91])
